import Mathlib

/-!
Verification development for the Little Prince gravity game
(files src/script.js and the modular split src/unnamed/part_000 .. part_003).

The JavaScript sources are embedded shallowly: numbers are modelled as real
numbers, the seeded linear-congruential generator as explicit natural-number
state threaded through every call, and the ambient Math.random stream (used
only for cosmetic particle state) as an explicit oracle argument.  Rendering,
DOM access, localStorage and particle/trail visuals are outside the physics
core and are omitted; every omission is noted at the definition it concerns.
-/

open Real

namespace Game

noncomputable section

open scoped Classical

/-- Canvas width constant CANVAS_WIDTH = 800 from script.js. -/
def CANVAS_WIDTH : ℝ := 800

/-- Canvas height constant CANVAS_HEIGHT = 600 from script.js. -/
def CANVAS_HEIGHT : ℝ := 600

/-- Gravitational constant GRAVITY_CONSTANT = 2778000 from script.js. -/
def GRAVITY_CONSTANT : ℝ := 2778000

/-- One step of the seeded generator inside Level.generateLevel:
randSeed = (randSeed * 9301 + 49297) % 233280.  The state is a natural
number; all call sites seed it with a positive level number, for which the
JavaScript remainder agrees with Nat.mod. -/
def rngNext (s : ℕ) : ℕ := (s * 9301 + 49297) % 233280

/-- The value returned by the closure random(): the updated seed normalised
to [0,1), paired with the updated seed. -/
def randStep (s : ℕ) : ℝ × ℕ :=
  let s2 := rngNext s
  ((s2 : ℝ) / 233280, s2)

/-- wrapScreenPosition from script.js, acting on a coordinate pair instead of
mutating the entity record. -/
def wrapScreenPosition (x y : ℝ) : ℝ × ℝ :=
  (if x < 0 then CANVAS_WIDTH else if x > CANVAS_WIDTH then 0 else x,
   if y < 0 then CANVAS_HEIGHT else if y > CANVAS_HEIGHT then 0 else y)

/-- lineSegmentIntersectsCircle from script.js (identical in
src/unnamed/part_000).  Returns the truth value the JavaScript function
returns: the degenerate no-movement case is a point-in-circle test, otherwise
the quadratic in the segment parameter t is solved and a hit is reported when
a root lies in [0,1] or the roots straddle [0,1]. -/
def lineSegmentIntersectsCircle (x1 y1 x2 y2 cx cy radius : ℝ) : Prop :=
  let dx := x2 - x1
  let dy := y2 - y1
  let lengthSquared := dx * dx + dy * dy
  if lengthSquared = 0 then
    (x1 - cx) * (x1 - cx) + (y1 - cy) * (y1 - cy) ≤ radius * radius
  else
    let fx := x1 - cx
    let fy := y1 - cy
    let a := lengthSquared
    let b := 2 * (fx * dx + fy * dy)
    let c := (fx * fx + fy * fy) - radius * radius
    let discriminant := b * b - 4 * a * c
    if discriminant < 0 then False
    else
      let sqrtDiscriminant := Real.sqrt discriminant
      let t1 := (-b - sqrtDiscriminant) / (2 * a)
      let t2 := (-b + sqrtDiscriminant) / (2 * a)
      (0 ≤ t1 ∧ t1 ≤ 1) ∨ (0 ≤ t2 ∧ t2 ≤ 1) ∨ (t1 < 0 ∧ 1 < t2)

/-- The shared gravity formula used verbatim by Planet.calculateGravity,
BlackHole.calculateGravity and the goal closure built in the Level
constructor: zero force inside radius + 5, otherwise an inverse-square force
with softening 100 directed from the body position (px, py) toward the source
centre (sx, sy).  gravityMultiplier is gameState.gravityMultiplier, passed
explicitly. -/
def calculateGravity (sx sy radius strength mult px py : ℝ) : ℝ × ℝ :=
  let dx := sx - px
  let dy := sy - py
  let distSquared := dx * dx + dy * dy
  let distance := Real.sqrt distSquared
  if distance < radius + 5 then (0, 0)
  else
    let forceMagnitude := strength * GRAVITY_CONSTANT * mult / (distSquared + 100)
    (forceMagnitude * (dx / distance), forceMagnitude * (dy / distance))

/-- JavaScript Math.atan2, modelled by the complex argument:
Math.atan2 (y, x) has range (-pi, pi] with the same quadrant convention as
Complex.arg. -/
def atan2 (y x : ℝ) : ℝ := Complex.arg ⟨x, y⟩

/-- A quadratic with positive leading coefficient and negative discriminant is
everywhere positive. -/
lemma quadratic_pos_of_disc_neg {a b c : ℝ} (ha : 0 < a)
    (hd : b * b - 4 * a * c < 0) (t : ℝ) : 0 < a * t ^ 2 + b * t + c := by
  nlinarith [sq_nonneg (2 * a * t + b)]

/-- With positive leading coefficient and nonnegative discriminant, a
quadratic is nonpositive exactly between its two roots. -/
lemma quadratic_nonpos_iff_between_roots {a b c : ℝ} (ha : 0 < a)
    (hd : 0 ≤ b * b - 4 * a * c) (t : ℝ) :
    a * t ^ 2 + b * t + c ≤ 0 ↔
      (-b - Real.sqrt (b * b - 4 * a * c)) / (2 * a) ≤ t ∧
        t ≤ (-b + Real.sqrt (b * b - 4 * a * c)) / (2 * a) := by
  have h2a : (0 : ℝ) < 2 * a := by linarith
  have hs0 : 0 ≤ Real.sqrt (b * b - 4 * a * c) := Real.sqrt_nonneg _
  have hs : Real.sqrt (b * b - 4 * a * c) ^ 2 = b * b - 4 * a * c :=
    Real.sq_sqrt hd
  set s := Real.sqrt (b * b - 4 * a * c) with hsdef
  constructor
  · intro hq
    have hkey : (2 * a * t + b) ^ 2 ≤ s ^ 2 := by nlinarith
    constructor
    · rw [div_le_iff h2a]
      nlinarith [sq_nonneg (2 * a * t + b + s)]
    · rw [le_div_iff h2a]
      nlinarith [sq_nonneg (2 * a * t + b - s)]
  · rintro ⟨h1, h2⟩
    rw [div_le_iff h2a] at h1
    rw [le_div_iff h2a] at h2
    have hsq : (2 * a * t + b) ^ 2 ≤ s ^ 2 := sq_le_sq' (by linarith) (by linarith)
    nlinarith

/-- The squared distance from the point at parameter t on the movement
segment to the circle centre, minus the squared radius, is the quadratic the
JavaScript code solves. -/
lemma segment_quadratic (x1 y1 x2 y2 cx cy r t : ℝ) :
    (x1 + t * (x2 - x1) - cx) ^ 2 + (y1 + t * (y2 - y1) - cy) ^ 2 - r ^ 2 =
      ((x2 - x1) * (x2 - x1) + (y2 - y1) * (y2 - y1)) * t ^ 2 +
        (2 * ((x1 - cx) * (x2 - x1) + (y1 - cy) * (y2 - y1))) * t +
        ((x1 - cx) * (x1 - cx) + (y1 - cy) * (y1 - cy) - r * r) := by
  ring

/-- Characterisation of the swept test: it holds exactly when some parameter
t in [0,1] puts the segment point within squared distance r * r of the
centre.  This needs no sign assumption on r because both sides compare
squared quantities. -/
lemma lsic_iff_exists (x1 y1 x2 y2 cx cy r : ℝ) :
    lineSegmentIntersectsCircle x1 y1 x2 y2 cx cy r ↔
      ∃ t, 0 ≤ t ∧ t ≤ 1 ∧
        (x1 + t * (x2 - x1) - cx) ^ 2 + (y1 + t * (y2 - y1) - cy) ^ 2 ≤ r ^ 2 := by
  have hpt : ∀ t, ((x1 + t * (x2 - x1) - cx) ^ 2 + (y1 + t * (y2 - y1) - cy) ^ 2 ≤ r ^ 2) ↔
      ((x2 - x1) * (x2 - x1) + (y2 - y1) * (y2 - y1)) * t ^ 2 +
        (2 * ((x1 - cx) * (x2 - x1) + (y1 - cy) * (y2 - y1))) * t +
        ((x1 - cx) * (x1 - cx) + (y1 - cy) * (y1 - cy) - r * r) ≤ 0 := by
    intro t
    constructor <;> intro h <;> nlinarith [segment_quadratic x1 y1 x2 y2 cx cy r t]
  simp only [lineSegmentIntersectsCircle]
  by_cases hL : (x2 - x1) * (x2 - x1) + (y2 - y1) * (y2 - y1) = 0
  · rw [if_pos hL]
    have hzx : x2 - x1 = 0 := by nlinarith [mul_self_nonneg (x2 - x1), mul_self_nonneg (y2 - y1)]
    have hzy : y2 - y1 = 0 := by nlinarith [mul_self_nonneg (x2 - x1), mul_self_nonneg (y2 - y1)]
    constructor
    · intro h
      refine ⟨0, le_refl 0, zero_le_one, ?_⟩
      rw [hzx, hzy]
      nlinarith
    · rintro ⟨t, _, _, h⟩
      rw [hzx, hzy] at h
      nlinarith
  · rw [if_neg hL]
    have hApos : 0 < (x2 - x1) * (x2 - x1) + (y2 - y1) * (y2 - y1) :=
      lt_of_le_of_ne (by nlinarith [mul_self_nonneg (x2 - x1), mul_self_nonneg (y2 - y1)])
        (Ne.symm hL)
    set A := (x2 - x1) * (x2 - x1) + (y2 - y1) * (y2 - y1) with hA
    set B := 2 * ((x1 - cx) * (x2 - x1) + (y1 - cy) * (y2 - y1)) with hB
    set C := (x1 - cx) * (x1 - cx) + (y1 - cy) * (y1 - cy) - r * r with hC
    by_cases hdisc : B * B - 4 * A * C < 0
    · rw [if_pos hdisc]
      simp only [false_iff, not_exists]
      intro t ht
      have h1 := quadratic_pos_of_disc_neg hApos hdisc t
      have h2 := (hpt t).mp ht.2.2
      linarith
    · rw [if_neg hdisc]
      push_neg at hdisc
      set s := Real.sqrt (B * B - 4 * A * C) with hsdef
      set t1 := (-B - s) / (2 * A) with ht1
      set t2 := (-B + s) / (2 * A) with ht2
      have hroots : ∀ t, A * t ^ 2 + B * t + C ≤ 0 ↔ t1 ≤ t ∧ t ≤ t2 := fun t =>
        quadratic_nonpos_iff_between_roots hApos hdisc t
      have h2a : (0 : ℝ) < 2 * A := by linarith
      have ht12 : t1 ≤ t2 := by
        rw [ht1, ht2, div_le_div_iff h2a h2a]
        nlinarith [Real.sqrt_nonneg (B * B - 4 * A * C)]
      constructor
      · rintro (⟨h1, h2⟩ | ⟨h1, h2⟩ | ⟨h1, h2⟩)
        · exact ⟨t1, h1, h2, (hpt t1).mpr ((hroots t1).mpr ⟨le_refl _, ht12⟩)⟩
        · exact ⟨t2, h1, h2, (hpt t2).mpr ((hroots t2).mpr ⟨ht12, le_refl _⟩)⟩
        · exact ⟨0, le_refl 0, zero_le_one,
            (hpt 0).mpr ((hroots 0).mpr ⟨le_of_lt h1, by linarith⟩)⟩
      · rintro ⟨t, ht0, ht1', hqt⟩
        have hb := (hroots t).mp ((hpt t).mp hqt)
        by_cases c1 : 0 ≤ t1
        · exact Or.inl ⟨c1, le_trans hb.1 ht1'⟩
        · push_neg at c1
          by_cases c2 : t2 ≤ 1
          · exact Or.inr (Or.inl ⟨le_trans ht0 hb.2, c2⟩)
          · push_neg at c2
            exact Or.inr (Or.inr ⟨c1, c2⟩)

/-- The swept test with coincident endpoints is exactly the point-in-circle
test at that point. -/
lemma lsic_same_point (x y cx cy r : ℝ) :
    lineSegmentIntersectsCircle x y x y cx cy r ↔
      (x - cx) * (x - cx) + (y - cy) * (y - cy) ≤ r * r := by
  rw [lineSegmentIntersectsCircle]
  simp

/-- C2: for a circle of nonnegative radius, lineSegmentIntersectsCircle holds
iff some point of the movement segment lies within distance radius of the
centre; and with coincident endpoints it is the point-in-circle test at that
single point. -/
theorem lineSegmentIntersectsCircle_correct (x1 y1 x2 y2 cx cy r : ℝ)
    (hr : 0 ≤ r) :
    (lineSegmentIntersectsCircle x1 y1 x2 y2 cx cy r ↔
      ∃ t, 0 ≤ t ∧ t ≤ 1 ∧
        Real.sqrt ((x1 + t * (x2 - x1) - cx) ^ 2 + (y1 + t * (y2 - y1) - cy) ^ 2) ≤ r) ∧
    ((x1, y1) = (x2, y2) →
      (lineSegmentIntersectsCircle x1 y1 x2 y2 cx cy r ↔
        (x1 - cx) * (x1 - cx) + (y1 - cy) * (y1 - cy) ≤ r * r)) := by
  constructor
  · rw [lsic_iff_exists]
    constructor <;> rintro ⟨t, ht0, ht1, h⟩ <;> refine ⟨t, ht0, ht1, ?_⟩
    · rw [Real.sqrt_le_left hr]
      exact h
    · rw [Real.sqrt_le_left hr] at h
      exact h
  · intro h
    have hx : x2 = x1 := by injection h with h1 h2; exact h1.symm
    have hy : y2 = y1 := by injection h with h1 h2; exact h2.symm
    rw [hx, hy]
    exact lsic_same_point x1 y1 cx cy r

/-- Witness for lineSegmentIntersectsCircle_correct at the concrete segment
(0,0) to (2,0) against the unit circle centred at (1,0). -/
theorem lineSegmentIntersectsCircle_correct_witness :
    (0 : ℝ) ≤ 1 ∧
    ((lineSegmentIntersectsCircle 0 0 2 0 1 0 1 ↔
      ∃ t, 0 ≤ t ∧ t ≤ 1 ∧
        Real.sqrt ((0 + t * (2 - 0) - 1) ^ 2 + (0 + t * (0 - 0) - 0) ^ 2) ≤ 1) ∧
    (((0 : ℝ), (0 : ℝ)) = ((2 : ℝ), (0 : ℝ)) →
      (lineSegmentIntersectsCircle 0 0 2 0 1 0 1 ↔
        ((0 : ℝ) - 1) * (0 - 1) + (0 - 0) * (0 - 0) ≤ 1 * 1))) :=
  ⟨by norm_num, lineSegmentIntersectsCircle_correct 0 0 2 0 1 0 1 (by norm_num)⟩

/-- C9: whenever the end position of the movement segment passes the
point-in-circle test, the swept test also reports a hit. -/
theorem swept_superset_of_endpoint_test (x1 y1 x2 y2 cx cy r : ℝ)
    (h : (x2 - cx) * (x2 - cx) + (y2 - cy) * (y2 - cy) ≤ r * r) :
    lineSegmentIntersectsCircle x1 y1 x2 y2 cx cy r := by
  rw [lsic_iff_exists]
  exact ⟨1, zero_le_one, le_refl 1, by nlinarith⟩

/-- Witness for swept_superset_of_endpoint_test: segment (5,7) to (1,0),
circle centred (1,0) with radius 1 contains the endpoint, and the swept test
fires. -/
theorem swept_superset_of_endpoint_test_witness :
    ((1 : ℝ) - 1) * (1 - 1) + (0 - 0) * (0 - 0) ≤ 1 * 1 ∧
      lineSegmentIntersectsCircle 5 7 1 0 1 0 1 :=
  ⟨by norm_num, swept_superset_of_endpoint_test 5 7 1 0 1 0 1 (by norm_num)⟩

/-- Planet record from the Planet class constructor (radius, x, y,
gravityStrength).  The colour strings derived from gravityStrength are
render-only and omitted. -/
structure Planet where
  radius : ℝ
  x : ℝ
  y : ℝ
  gravityStrength : ℝ

instance : Inhabited Planet := ⟨⟨0, 0, 0, 0⟩⟩

/-- One vortex particle of the black-hole accretion disk, produced in the
BlackHole constructor from five Math.random draws.  Purely cosmetic state. -/
structure VortexParticle where
  angle : ℝ
  distance : ℝ
  speed : ℝ
  size : ℝ
  hue : ℝ

/-- BlackHole record from the BlackHole class constructor.  script.js sets
gravityStrength = 4.0 while the modular split (src/unnamed/part_001) sets
15.0; the generator never overrides it, so it is a constructor field here.
rotation starts at 0 and only evolves cosmetically in BlackHole.update. -/
structure BlackHole where
  x : ℝ
  y : ℝ
  radius : ℝ
  gravityStrength : ℝ
  rotation : ℝ
  particles : List VortexParticle

/-- The ambient Math.random stream, modelled as an explicit oracle of draws
indexed by how many ambient draws happened before.  Level generation consumes
it only inside the BlackHole constructor (cosmetic vortex particles). -/
def Oracle : Type := ℕ → ℝ

/-- The BlackHole constructor of script.js: position, radius, gravity
strength 4.0, rotation 0, and forty vortex particles each built from five
consecutive ambient Math.random draws starting at index k. -/
def mkBlackHole (o : Oracle) (k : ℕ) (x y radius : ℝ) : BlackHole :=
  { x := x, y := y, radius := radius, gravityStrength := 4.0, rotation := 0,
    particles := (List.range 40).map fun i =>
      { angle := o (k + 5 * i) * (2 * π),
        distance := radius + o (k + 5 * i + 1) * 30,
        speed := 0.5 + o (k + 5 * i + 2) * 1.5,
        size := 1 + o (k + 5 * i + 3) * 2,
        hue := 250 + o (k + 5 * i + 4) * 40 } }

/-- The goal object built inside the Level constructor: position, radius 20
and gravityStrength 0.56, with the shared gravity formula as its
calculateGravity closure. -/
structure GoalSource where
  x : ℝ
  y : ℝ
  radius : ℝ
  gravityStrength : ℝ

/-- Planet.calculateGravity: the shared formula applied to the planet fields
and gameState.gravityMultiplier. -/
def Planet.calculateGravity (p : Planet) (mult px py : ℝ) : ℝ × ℝ :=
  Game.calculateGravity p.x p.y p.radius p.gravityStrength mult px py

/-- BlackHole.calculateGravity: textually the same formula as the planet
version, reading the black-hole fields. -/
def BlackHole.calculateGravity (bh : BlackHole) (mult px py : ℝ) : ℝ × ℝ :=
  Game.calculateGravity bh.x bh.y bh.radius bh.gravityStrength mult px py

/-- The calculateGravity closure of the goal object in the Level
constructor, again the same formula. -/
def GoalSource.calculateGravity (g : GoalSource) (mult px py : ℝ) : ℝ × ℝ :=
  Game.calculateGravity g.x g.y g.radius g.gravityStrength mult px py

/-- C3: the shared gravity formula (used by Planet.calculateGravity,
BlackHole.calculateGravity and the goal closure alike) returns the zero
vector when the distance from the body to the source centre is below
radius + 5, and otherwise a force directed from the body toward the centre
whose magnitude is strength * GRAVITY_CONSTANT * mult / (distance^2 + 100). -/
theorem calculateGravity_correct (sx sy radius strength mult px py : ℝ)
    (hrad : 0 ≤ radius) (hstr : 0 ≤ strength) (hmul : 0 ≤ mult) :
    (Real.sqrt ((sx - px) * (sx - px) + (sy - py) * (sy - py)) < radius + 5 →
      calculateGravity sx sy radius strength mult px py = (0, 0)) ∧
    (radius + 5 ≤ Real.sqrt ((sx - px) * (sx - px) + (sy - py) * (sy - py)) →
      ∃ k : ℝ, 0 ≤ k ∧
        calculateGravity sx sy radius strength mult px py =
          (k * (sx - px), k * (sy - py)) ∧
        Real.sqrt ((calculateGravity sx sy radius strength mult px py).1 ^ 2 +
            (calculateGravity sx sy radius strength mult px py).2 ^ 2) =
          strength * GRAVITY_CONSTANT * mult /
            (Real.sqrt ((sx - px) * (sx - px) + (sy - py) * (sy - py)) ^ 2 + 100)) := by
  constructor
  · intro h
    simp only [calculateGravity]
    rw [if_pos h]
  · intro h
    have hd2 : (0 : ℝ) ≤ (sx - px) * (sx - px) + (sy - py) * (sy - py) := by
      nlinarith [mul_self_nonneg (sx - px), mul_self_nonneg (sy - py)]
    have hdpos : 0 < Real.sqrt ((sx - px) * (sx - px) + (sy - py) * (sy - py)) := by
      linarith
    have hsq : Real.sqrt ((sx - px) * (sx - px) + (sy - py) * (sy - py)) ^ 2 =
        (sx - px) * (sx - px) + (sy - py) * (sy - py) := Real.sq_sqrt hd2
    have hG : (0 : ℝ) < GRAVITY_CONSTANT := by norm_num [GRAVITY_CONSTANT]
    set d := Real.sqrt ((sx - px) * (sx - px) + (sy - py) * (sy - py)) with hd
    set f := strength * GRAVITY_CONSTANT * mult /
        ((sx - px) * (sx - px) + (sy - py) * (sy - py) + 100) with hf
    have hfnn : 0 ≤ f := by
      rw [hf]
      have : (0:ℝ) < (sx - px) * (sx - px) + (sy - py) * (sy - py) + 100 := by linarith
      positivity
    have hgrav : calculateGravity sx sy radius strength mult px py =
        (f * ((sx - px) / d), f * ((sy - py) / d)) := by
      simp only [calculateGravity]
      rw [if_neg (not_lt.mpr h)]
    refine ⟨f / d, by positivity, ?_, ?_⟩
    · rw [hgrav, Prod.mk.injEq]
      constructor <;> ring
    · rw [hgrav]
      have hexp : (f * ((sx - px) / d)) ^ 2 + (f * ((sy - py) / d)) ^ 2 = f ^ 2 := by
        have hdd : d ^ 2 = (sx - px) * (sx - px) + (sy - py) * (sy - py) := hsq
        field_simp
        nlinarith [hdd]
      simp only [hexp]
      rw [Real.sqrt_sq hfnn, hf, hsq]

/-- Witness for calculateGravity_correct: a unit-strength source of radius 1
at the origin and a body at (10, 0). -/
theorem calculateGravity_correct_witness :
    ((0 : ℝ) ≤ 1 ∧ (0 : ℝ) ≤ 1 ∧ (0 : ℝ) ≤ 1) ∧
    ((Real.sqrt ((0 - 10) * (0 - 10) + (0 - 0) * (0 - 0)) < 1 + 5 →
      calculateGravity 0 0 1 1 1 10 0 = (0, 0)) ∧
    (1 + 5 ≤ Real.sqrt ((0 - 10) * (0 - 10) + (0 - 0) * (0 - 0)) →
      ∃ k : ℝ, 0 ≤ k ∧
        calculateGravity 0 0 1 1 1 10 0 = (k * (0 - 10), k * (0 - 0)) ∧
        Real.sqrt ((calculateGravity 0 0 1 1 1 10 0).1 ^ 2 +
            (calculateGravity 0 0 1 1 1 10 0).2 ^ 2) =
          1 * GRAVITY_CONSTANT * 1 /
            (Real.sqrt ((0 - 10) * (0 - 10) + (0 - 0) * (0 - 0)) ^ 2 + 100))) :=
  ⟨⟨by norm_num, by norm_num, by norm_num⟩,
    calculateGravity_correct 0 0 1 1 1 10 0 (by norm_num) (by norm_num) (by norm_num)⟩

/-- Player physical radius, set to 8 in the Player constructor. -/
def playerRadius : ℝ := 8

/-- baseAngularSpeed from the Player constructor: six rotations per second. -/
def baseAngularSpeed : ℝ := 6 * 2 * π

/-- angularAcceleration from the Player constructor, calibrated so that four
rotations of acceleration reach full speed. -/
def angularAcceleration : ℝ := baseAngularSpeed ^ 2 / (16 * π)

/-- angularDeceleration from the Player constructor: sixty percent of the
acceleration. -/
def angularDeceleration : ℝ := angularAcceleration * 0.6

/-- escapeThreshold from the Player constructor: one over the square root of
two. -/
def escapeThreshold : ℝ := 1 / Real.sqrt 2

/-- Player record.  The per-instance numeric constants (radius 8,
baseAngularSpeed, angularAcceleration, angularDeceleration, escapeThreshold)
are identical for every instance and are modelled as the global definitions
above.  The trail list is render-only and omitted. -/
structure Player where
  x : ℝ
  y : ℝ
  prevX : ℝ
  prevY : ℝ
  vx : ℝ
  vy : ℝ
  screenWrapped : Bool
  onPlanet : Bool
  currentPlanet : Option Planet
  hasJumped : Bool
  angle : ℝ
  angularSpeed : ℝ

/-- The Player constructor: position, zeroed velocity and flags, and, when a
planet is supplied (initial spawn), the surface flag with the angle from the
planet centre.  The JavaScript appends a fallback of 0 only when atan2
returns a falsy value (0 itself), which is the identity on reals. -/
def mkPlayer (x y : ℝ) (planet : Option Planet) : Player :=
  let base : Player :=
    { x := x, y := y, prevX := x, prevY := y, vx := 0, vy := 0,
      screenWrapped := false, onPlanet := false, currentPlanet := none,
      hasJumped := false, angle := 0, angularSpeed := 0 }
  match planet with
  | some p =>
      { base with onPlanet := true, currentPlanet := some p,
                  angle := atan2 (y - p.y) (x - p.x) }
  | none => base

/-- Player.jump from script.js: when on a planet, convert the angular speed
into a tangential launch velocity at the orbital radius, add a fixed radial
push of 50 away from the planet, and leave the surface.  The particle burst
is render-only and omitted. -/
def Player.jump (p : Player) : Player :=
  if p.onPlanet then
    match p.currentPlanet with
    | some planet =>
        let orbitalRadius := planet.radius + playerRadius + 2
        let currentLinearVelocity := |p.angularSpeed| * orbitalRadius
        let radialAngle := atan2 (p.y - planet.y) (p.x - planet.x)
        let directionSign : ℝ := if 0 ≤ p.angularSpeed then 1 else -1
        let tangentialAngle := radialAngle + π / 2 * directionSign
        { p with
            vx := Real.cos tangentialAngle * currentLinearVelocity +
              Real.cos radialAngle * 50,
            vy := Real.sin tangentialAngle * currentLinearVelocity +
              Real.sin radialAngle * 50,
            onPlanet := false,
            hasJumped := true }
    | none => p
  else p

/-- Cosine of the atan2 angle is the x component over the distance. -/
lemma cos_atan2 (y x : ℝ) (h : ¬(x = 0 ∧ y = 0)) :
    Real.cos (atan2 y x) = x / Real.sqrt (x ^ 2 + y ^ 2) := by
  have hz : (⟨x, y⟩ : ℂ) ≠ 0 := by
    intro hz
    rw [Complex.ext_iff] at hz
    exact h ⟨hz.1, hz.2⟩
  rw [atan2, Complex.cos_arg hz, Complex.abs_apply, Complex.normSq_mk]
  norm_num [sq]

/-- Sine of the atan2 angle is the y component over the distance. -/
lemma sin_atan2 (y x : ℝ) :
    Real.sin (atan2 y x) = y / Real.sqrt (x ^ 2 + y ^ 2) := by
  rw [atan2, Complex.sin_arg, Complex.abs_apply, Complex.normSq_mk]
  norm_num [sq]

/-- C4: Player.jump sets the launch velocity to a tangential component of
magnitude equal to the absolute angular speed times the orbital radius,
signed by the rotation direction, plus a fixed radial push of 50 directed
away from the planet; in particular a launch at angular speed
escapeThreshold * baseAngularSpeed has tangential speed
baseAngularSpeed * escapeThreshold * orbitalRadius. -/
theorem jump_launch_velocity (p : Player) (planet : Planet) (d ux uy sg : ℝ)
    (hsurf : p.onPlanet = true) (hcur : p.currentPlanet = some planet)
    (hpos : (p.x, p.y) ≠ (planet.x, planet.y))
    (hd : d = Real.sqrt ((p.x - planet.x) ^ 2 + (p.y - planet.y) ^ 2))
    (hux : ux = (p.x - planet.x) / d)
    (huy : uy = (p.y - planet.y) / d)
    (hsg : sg = if 0 ≤ p.angularSpeed then 1 else -1) :
    ((p.jump).vx = |p.angularSpeed| * (planet.radius + playerRadius + 2) *
        (-(sg * uy)) + 50 * ux ∧
     (p.jump).vy = |p.angularSpeed| * (planet.radius + playerRadius + 2) *
        (sg * ux) + 50 * uy) ∧
    ((p.jump).vx * (-(sg * uy)) + (p.jump).vy * (sg * ux) =
        |p.angularSpeed| * (planet.radius + playerRadius + 2) ∧
     (p.jump).vx * ux + (p.jump).vy * uy = 50) ∧
    (|p.angularSpeed| = escapeThreshold * baseAngularSpeed →
      (p.jump).vx * (-(sg * uy)) + (p.jump).vy * (sg * ux) =
        baseAngularSpeed * escapeThreshold * (planet.radius + playerRadius + 2)) := by
  have hne : ¬((p.x - planet.x) = 0 ∧ (p.y - planet.y) = 0) := by
    rintro ⟨h1, h2⟩
    exact hpos (by rw [Prod.mk.injEq]; constructor <;> linarith)
  have hd2pos : 0 < (p.x - planet.x) ^ 2 + (p.y - planet.y) ^ 2 := by
    rcases not_and_or.mp hne with h | h
    · have := lt_of_le_of_ne (sq_nonneg (p.x - planet.x)) (Ne.symm (pow_ne_zero 2 h))
      nlinarith [sq_nonneg (p.y - planet.y)]
    · have := lt_of_le_of_ne (sq_nonneg (p.y - planet.y)) (Ne.symm (pow_ne_zero 2 h))
      nlinarith [sq_nonneg (p.x - planet.x)]
  have hdpos : 0 < d := by
    rw [hd]
    exact Real.sqrt_pos.mpr hd2pos
  have hdne : d ≠ 0 := ne_of_gt hdpos
  have hdd : d ^ 2 = (p.x - planet.x) ^ 2 + (p.y - planet.y) ^ 2 := by
    rw [hd]
    exact Real.sq_sqrt (le_of_lt hd2pos)
  have hcos : Real.cos (atan2 (p.y - planet.y) (p.x - planet.x)) = ux := by
    rw [cos_atan2 _ _ hne, hux, hd]
  have hsin : Real.sin (atan2 (p.y - planet.y) (p.x - planet.x)) = uy := by
    rw [sin_atan2, huy, hd]
  have hunit : ux ^ 2 + uy ^ 2 = 1 := by
    rw [hux, huy]
    field_simp
    linarith [hdd]
  have hvx : (p.jump).vx =
      |p.angularSpeed| * (planet.radius + playerRadius + 2) * (-(sg * uy)) + 50 * ux := by
    by_cases hw : 0 ≤ p.angularSpeed
    · rw [hsg, if_pos hw]
      simp only [Player.jump, hsurf, hcur, reduceIte, if_pos hw]
      rw [mul_one, Real.cos_add_pi_div_two, hsin, hcos]
      ring
    · rw [hsg, if_neg hw]
      simp only [Player.jump, hsurf, hcur, reduceIte, if_neg hw]
      rw [show atan2 (p.y - planet.y) (p.x - planet.x) + π / 2 * (-1) =
          atan2 (p.y - planet.y) (p.x - planet.x) - π / 2 by ring,
        Real.cos_sub_pi_div_two, hsin, hcos]
      ring
  have hvy : (p.jump).vy =
      |p.angularSpeed| * (planet.radius + playerRadius + 2) * (sg * ux) + 50 * uy := by
    by_cases hw : 0 ≤ p.angularSpeed
    · rw [hsg, if_pos hw]
      simp only [Player.jump, hsurf, hcur, reduceIte, if_pos hw]
      rw [mul_one, Real.sin_add_pi_div_two, hcos, hsin]
      ring
    · rw [hsg, if_neg hw]
      simp only [Player.jump, hsurf, hcur, reduceIte, if_neg hw]
      rw [show atan2 (p.y - planet.y) (p.x - planet.x) + π / 2 * (-1) =
          atan2 (p.y - planet.y) (p.x - planet.x) - π / 2 by ring,
        Real.sin_sub_pi_div_two, hcos, hsin]
      ring
  have hsg2 : sg ^ 2 = 1 := by
    rw [hsg]
    by_cases hw : 0 ≤ p.angularSpeed
    · rw [if_pos hw]; norm_num
    · rw [if_neg hw]; norm_num
  refine ⟨⟨hvx, hvy⟩, ⟨?_, ?_⟩, ?_⟩
  · rw [hvx, hvy]
    linear_combination (|p.angularSpeed| * (planet.radius + playerRadius + 2) *
        (ux ^ 2 + uy ^ 2)) * hsg2 +
      (|p.angularSpeed| * (planet.radius + playerRadius + 2)) * hunit
  · rw [hvx, hvy]
    linear_combination 50 * hunit
  · intro he
    rw [hvx, hvy]
    linear_combination (|p.angularSpeed| * (planet.radius + playerRadius + 2) *
        (ux ^ 2 + uy ^ 2)) * hsg2 +
      (|p.angularSpeed| * (planet.radius + playerRadius + 2)) * hunit +
      (planet.radius + playerRadius + 2) * he

/-- Witness for jump_launch_velocity: a player at rest on the surface of a
planet of radius 35 centred at the origin, standing at (45, 0). -/
theorem jump_launch_velocity_witness :
    ∃ (p : Player) (planet : Planet),
      p.onPlanet = true ∧ p.currentPlanet = some planet ∧
      ((p.jump).vx * (-(1 * 0) : ℝ) + (p.jump).vy * (1 * 1) =
          |p.angularSpeed| * (planet.radius + playerRadius + 2) ∧
        (p.jump).vx * 1 + (p.jump).vy * 0 = 50) := by
  refine ⟨{ x := 45, y := 0, prevX := 45, prevY := 0, vx := 0, vy := 0,
            screenWrapped := false, onPlanet := true,
            currentPlanet := some ⟨35, 0, 0, 1⟩, hasJumped := false,
            angle := 0, angularSpeed := 0 },
          ⟨35, 0, 0, 1⟩, rfl, rfl, ?_⟩
  have h := jump_launch_velocity
    { x := 45, y := 0, prevX := 45, prevY := 0, vx := 0, vy := 0,
      screenWrapped := false, onPlanet := true,
      currentPlanet := some ⟨35, 0, 0, 1⟩, hasJumped := false,
      angle := 0, angularSpeed := 0 }
    ⟨35, 0, 0, 1⟩ 45 1 0 1 rfl rfl
    (by simp)
    (by norm_num
        rw [show (2025 : ℝ) = 45 ^ 2 by norm_num,
          Real.sqrt_sq (by norm_num : (0:ℝ) ≤ 45)])
    (by norm_num)
    (by norm_num)
    (by norm_num)
  exact h.2.1

/-- Player.updateAngularMovement from script.js (lines 303 to 329): left
input accelerates negatively with a floor, otherwise right input accelerates
positively with a ceiling, otherwise friction decelerates toward zero.  When
both inputs are held the left branch wins.  Returns the updated
(angularSpeed, angle) pair; the angle integrates the updated speed. -/
def updateAngularMovement (keysLeft keysRight : Bool) (dt ω angle : ℝ) : ℝ × ℝ :=
  let ω2 :=
    if keysLeft then
      max (ω - angularAcceleration * dt) (-baseAngularSpeed)
    else if keysRight then
      min (ω + angularAcceleration * dt) baseAngularSpeed
    else
      let decel := angularDeceleration * dt
      if |ω| < decel then 0 else ω - Real.sign ω * decel
  (ω2, angle + ω2 * dt)

/-- angularAcceleration from the src/unnamed/part_001 Player constructor
(line 215): baseAngularSpeed squared over 32 * pi, fifty percent slower than
the script.js calibration. -/
def angularAccelerationM : ℝ := baseAngularSpeed ^ 2 / (32 * π)

/-- Player.updateAngularMovement from src/unnamed/part_001 (lines 230 to
274): a target speed is computed from the inputs (both held gives target 0),
optionally overridden by the mobile joystick, and the speed moves toward the
target by at most that variant's angularAcceleration * dt, snapping when
close, then is clamped to the speed band.  Returns the updated
(angularSpeed, angle). -/
def updateAngularMovementM (keysLeft keysRight mobileLeft : Bool)
    (mobileTargetSpeed dt ω angle : ℝ) : ℝ × ℝ :=
  let targetSpeed : ℝ :=
    if keysLeft && keysRight then 0
    else if keysLeft then -baseAngularSpeed
    else if keysRight then baseAngularSpeed
    else 0
  let targetSpeed :=
    if mobileTargetSpeed > 0 then
      (if mobileLeft then -1 else 1) * baseAngularSpeed * mobileTargetSpeed
    else targetSpeed
  let speedDifference := targetSpeed - ω
  let maxAcceleration := angularAccelerationM * dt
  let ω2 :=
    if |speedDifference| < maxAcceleration then targetSpeed
    else ω + Real.sign speedDifference * maxAcceleration
  let ω3 := max (-baseAngularSpeed) (min baseAngularSpeed ω2)
  (ω3, angle + ω3 * dt)

/-- C8 counterexample: in the script.js variant, holding both directional
inputs does not brake toward zero.  From rest the speed becomes strictly
negative (the left branch wins), its magnitude strictly grows, and the result
coincides with holding left alone. -/
theorem updateAngularMovement_both_keys_not_braking :
    (updateAngularMovement true true (1 / 60) 0 0).1 < 0 ∧
    ¬ |(updateAngularMovement true true (1 / 60) 0 0).1| ≤ |(0 : ℝ)| ∧
    (updateAngularMovement true true (1 / 60) 0 0).1 =
      (updateAngularMovement true false (1 / 60) 0 0).1 := by
  have hpi := Real.pi_pos
  have hacc : angularAcceleration = 9 * π := by
    rw [angularAcceleration, baseAngularSpeed]
    field_simp
    ring
  have hval : (updateAngularMovement true true (1 / 60) 0 0).1 =
      max (0 - angularAcceleration * (1 / 60)) (-baseAngularSpeed) := by
    simp only [updateAngularMovement, reduceIte]
  have hneg : max (0 - angularAcceleration * (1 / 60)) (-baseAngularSpeed) < 0 :=
    max_lt (by rw [hacc]; nlinarith) (by rw [baseAngularSpeed]; nlinarith)
  refine ⟨by rw [hval]; exact hneg, ?_, ?_⟩
  · rw [hval, abs_zero, not_le]
    exact abs_pos.mpr (ne_of_lt hneg)
  · simp only [updateAngularMovement, reduceIte]

/-- C8 amended: the part_001 variant does brake toward zero when both inputs
are held (and the mobile joystick override is inactive): the updated speed
stays between the old speed and zero and changes by at most that variant's
angularAcceleration * dt, that is baseAngularSpeed^2/(32*pi) * dt. -/
theorem updateAngularMovementM_both_keys_brakes (ml : Bool)
    (mts dt ω angle r : ℝ) (hmob : mts ≤ 0) (hdt : 0 ≤ dt)
    (hband : |ω| ≤ baseAngularSpeed)
    (hr : r = (updateAngularMovementM true true ml mts dt ω angle).1) :
    min ω 0 ≤ r ∧ r ≤ max ω 0 ∧ |ω - r| ≤ angularAccelerationM * dt := by
  have hpi := Real.pi_pos
  have hbase : 0 < baseAngularSpeed := by rw [baseAngularSpeed]; positivity
  have haccnn : 0 ≤ angularAccelerationM * dt := by
    have : 0 ≤ angularAccelerationM := by rw [angularAccelerationM, baseAngularSpeed]; positivity
    positivity
  have hbandl : -baseAngularSpeed ≤ ω := neg_le_of_abs_le hband
  have hbandr : ω ≤ baseAngularSpeed := le_of_abs_le hband
  have hval : r = max (-baseAngularSpeed) (min baseAngularSpeed
      (if |0 - ω| < angularAccelerationM * dt then 0
       else ω + Real.sign (0 - ω) * (angularAccelerationM * dt))) := by
    rw [hr]
    simp only [updateAngularMovementM, Bool.and_self, reduceIte, if_neg (not_lt.mpr hmob)]
  rw [zero_sub, abs_neg] at hval
  by_cases hc : |ω| < angularAccelerationM * dt
  · have hrval : r = 0 := by
      rw [hval, if_pos hc, min_eq_right (le_of_lt hbase),
        max_eq_right (by linarith : -baseAngularSpeed ≤ (0 : ℝ))]
    refine ⟨?_, ?_, ?_⟩
    · rw [hrval]; exact min_le_right ω 0
    · rw [hrval]; exact le_max_right ω 0
    · rw [hrval, sub_zero]; exact le_of_lt hc
  · push_neg at hc
    rcases lt_trichotomy ω 0 with hω | hω | hω
    · have hsgn : Real.sign (-ω) = 1 := Real.sign_of_pos (by linarith)
      have h1 : ω + angularAccelerationM * dt ≤ 0 := by
        rw [abs_of_neg hω] at hc
        linarith
      have hrval : r = ω + angularAccelerationM * dt := by
        rw [hval, if_neg (not_lt.mpr hc), hsgn, one_mul,
          min_eq_right (by linarith : ω + angularAccelerationM * dt ≤ baseAngularSpeed),
          max_eq_right (by linarith : -baseAngularSpeed ≤ ω + angularAccelerationM * dt)]
      refine ⟨?_, ?_, ?_⟩
      · rw [hrval, min_eq_left (le_of_lt hω)]; linarith
      · rw [hrval, max_eq_right (le_of_lt hω)]; linarith
      · rw [hrval, abs_of_nonpos (by linarith)]; linarith
    · subst hω
      have hacc0 : angularAccelerationM * dt = 0 := le_antisymm (by simpa using hc) haccnn
      have hrval : r = 0 := by
        rw [hval, neg_zero, Real.sign_zero, zero_mul, add_zero,
          if_neg (not_lt.mpr hc), min_eq_right (le_of_lt hbase),
          max_eq_right (by linarith : -baseAngularSpeed ≤ (0 : ℝ))]
      refine ⟨?_, ?_, ?_⟩
      · rw [hrval]; exact min_le_right 0 0
      · rw [hrval]; exact le_max_right 0 0
      · rw [hrval, sub_zero, abs_zero]; exact haccnn
    · have hsgn : Real.sign (-ω) = -1 := Real.sign_of_neg (by linarith)
      have h1 : 0 ≤ ω + -1 * (angularAccelerationM * dt) := by
        rw [abs_of_pos hω] at hc
        linarith
      have hrval : r = ω + -1 * (angularAccelerationM * dt) := by
        rw [hval, if_neg (not_lt.mpr hc), hsgn,
          min_eq_right (by linarith : ω + -1 * (angularAccelerationM * dt) ≤ baseAngularSpeed),
          max_eq_right (by linarith : -baseAngularSpeed ≤ ω + -1 * (angularAccelerationM * dt))]
      refine ⟨?_, ?_, ?_⟩
      · rw [hrval, min_eq_right (le_of_lt hω)]; linarith
      · rw [hrval, max_eq_left (le_of_lt hω)]; linarith
      · rw [hrval, abs_of_nonneg (by linarith)]; linarith

/-- Witness for updateAngularMovementM_both_keys_brakes at half speed with
dt one sixtieth of a second and inactive mobile input. -/
theorem updateAngularMovementM_both_keys_brakes_witness :
    ((0 : ℝ) ≤ 0 ∧ (0 : ℝ) ≤ 1 / 60 ∧
      |baseAngularSpeed / 2| ≤ baseAngularSpeed) ∧
    (min (baseAngularSpeed / 2) 0 ≤
        (updateAngularMovementM true true false 0 (1 / 60) (baseAngularSpeed / 2) 0).1 ∧
      (updateAngularMovementM true true false 0 (1 / 60) (baseAngularSpeed / 2) 0).1 ≤
        max (baseAngularSpeed / 2) 0 ∧
      |baseAngularSpeed / 2 -
          (updateAngularMovementM true true false 0 (1 / 60) (baseAngularSpeed / 2) 0).1| ≤
        angularAccelerationM * (1 / 60)) := by
  have hpi := Real.pi_pos
  have hbase : 0 < baseAngularSpeed := by rw [baseAngularSpeed]; positivity
  have hband : |baseAngularSpeed / 2| ≤ baseAngularSpeed := by
    rw [abs_of_nonneg (by linarith)]
    linarith
  exact ⟨⟨le_refl 0, by norm_num, hband⟩,
    updateAngularMovementM_both_keys_brakes false 0 (1 / 60) (baseAngularSpeed / 2) 0 _
      (le_refl 0) (by norm_num) hband rfl⟩

/-- Level record from the Level class constructor: the planet list, start and
goal positions, goal radius 20, an initially empty black-hole list, seed 0,
archetype tag, and the goal treated as a gravity source of strength 0.56. -/
structure Level where
  planets : List Planet
  startPosition : ℝ × ℝ
  goalPosition : ℝ × ℝ
  goalRadius : ℝ
  blackHoles : List BlackHole
  seed : ℕ
  archetype : String
  goal : GoalSource

/-- The Level constructor new Level(planets, startPosition, goalPosition). -/
def mkLevel (planets : List Planet) (startPosition goalPosition : ℝ × ℝ) : Level :=
  { planets := planets, startPosition := startPosition,
    goalPosition := goalPosition, goalRadius := 20, blackHoles := [],
    seed := 0, archetype := "standard",
    goal := { x := goalPosition.1, y := goalPosition.2, radius := 20,
              gravityStrength := 0.56 } }

/-- The landing loop at the top of Player.updatePhysics: scan the planets in
level order and land on the first one whose combined radius the player
touches now or crossed this frame (swept test); landing snaps the player to
the contact angle on the surface, zeroes the velocities and resets the jump
flag.  The landing-statistics counter and particle burst are session and
render effects and are omitted. -/
def landingScan (p : Player) : List Planet → Player
  | [] => p
  | planet :: rest =>
      let landingDistance := planet.radius + playerRadius
      let dx := p.x - planet.x
      let dy := p.y - planet.y
      let distSquared := dx * dx + dy * dy
      if distSquared ≤ landingDistance * landingDistance ∨
          lineSegmentIntersectsCircle p.prevX p.prevY p.x p.y planet.x planet.y
            landingDistance then
        let surfaceDistance := planet.radius + playerRadius
        let angle := atan2 dy dx
        { p with onPlanet := true, currentPlanet := some planet,
                 hasJumped := false, angle := angle,
                 x := planet.x + Real.cos angle * surfaceDistance,
                 y := planet.y + Real.sin angle * surfaceDistance,
                 vx := 0, vy := 0, angularSpeed := 0 }
      else landingScan p rest

/-- Player.updatePhysics from script.js: land if in flight and touching,
then either run on the occupied surface (angular movement and derived
position) or integrate gravity from every planet, the goal and every black
hole by explicit Euler, wrap the position at the screen edges, and reset the
swept-collision previous position when the wrap moved the player.  The trail
(which uses ambient randomness) is render-only and omitted. -/
def updatePhysics (level : Level) (keysLeft keysRight : Bool)
    (deltaTime gameSpeed mult : ℝ) (p0 : Player) : Player :=
  let dt := deltaTime * 0.001 * gameSpeed
  let p1 := if p0.onPlanet then p0 else landingScan p0 level.planets
  match p1.onPlanet, p1.currentPlanet with
  | true, some planet =>
      let updated := updateAngularMovement keysLeft keysRight dt
        p1.angularSpeed p1.angle
      let surfaceDistance := planet.radius + playerRadius + 2
      { p1 with angularSpeed := updated.1, angle := updated.2,
                x := planet.x + Real.cos updated.2 * surfaceDistance,
                y := planet.y + Real.sin updated.2 * surfaceDistance }
  | _, _ =>
      let f1 := level.planets.foldl (fun acc pl =>
        let g := pl.calculateGravity mult p1.x p1.y
        (acc.1 + g.1, acc.2 + g.2)) ((0 : ℝ), (0 : ℝ))
      let g := level.goal.calculateGravity mult p1.x p1.y
      let f2 := (f1.1 + g.1, f1.2 + g.2)
      let f3 := level.blackHoles.foldl (fun acc bh =>
        let g := bh.calculateGravity mult p1.x p1.y
        (acc.1 + g.1, acc.2 + g.2)) f2
      let vx2 := p1.vx + f3.1 * dt
      let vy2 := p1.vy + f3.2 * dt
      let x2 := p1.x + vx2 * dt
      let y2 := p1.y + vy2 * dt
      let w := wrapScreenPosition x2 y2
      if w.1 = x2 ∧ w.2 = y2 then
        { p1 with x := w.1, y := w.2, vx := vx2, vy := vy2,
                  screenWrapped := false }
      else
        { p1 with x := w.1, y := w.2, vx := vx2, vy := vy2,
                  prevX := w.1, prevY := w.2, screenWrapped := true }

/-- checkBlackHoleCollision from script.js: lethal when the current position
is strictly inside the combined radius of some black hole, or the movement
segment sweeps through it. -/
def checkBlackHoleCollision (p : Player) (blackHoles : List BlackHole) : Prop :=
  ∃ bh ∈ blackHoles,
    (p.x - bh.x) * (p.x - bh.x) + (p.y - bh.y) * (p.y - bh.y) <
      (bh.radius + playerRadius) * (bh.radius + playerRadius) ∨
    lineSegmentIntersectsCircle p.prevX p.prevY p.x p.y bh.x bh.y
      (bh.radius + playerRadius)

/-- Level.checkGoal from script.js: reached when the current position is
within the goal radius (no body-radius padding) or the movement segment
sweeps through the goal circle. -/
def Level.checkGoal (level : Level) (p : Player) : Prop :=
  (p.x - level.goalPosition.1) * (p.x - level.goalPosition.1) +
      (p.y - level.goalPosition.2) * (p.y - level.goalPosition.2) ≤
    level.goalRadius * level.goalRadius ∨
  lineSegmentIntersectsCircle p.prevX p.prevY p.x p.y
    level.goalPosition.1 level.goalPosition.2 level.goalRadius

/-- C6: whenever a flight step of updatePhysics fires the screen wrap (the
screenWrapped flag of the result is set and the player stayed in flight),
the previous position used by swept collision equals the wrapped position,
so the swept test of that step against any circle degenerates to the
point-in-circle test at the wrapped position and cannot fire from the
teleport itself. -/
theorem wrap_resets_swept_segment (level : Level) (keysLeft keysRight : Bool)
    (deltaTime gameSpeed mult : ℝ) (p0 p2 : Player)
    (hp2 : p2 = updatePhysics level keysLeft keysRight deltaTime gameSpeed mult p0)
    (hflight : p2.onPlanet = false) (hwrap : p2.screenWrapped = true) :
    (p2.prevX = p2.x ∧ p2.prevY = p2.y) ∧
    ∀ cx cy r : ℝ,
      lineSegmentIntersectsCircle p2.prevX p2.prevY p2.x p2.y cx cy r ↔
        (p2.x - cx) * (p2.x - cx) + (p2.y - cy) * (p2.y - cy) ≤ r * r := by
  have hprev : p2.prevX = p2.x ∧ p2.prevY = p2.y := by
    rw [updatePhysics] at hp2
    repeat' split at hp2
    all_goals subst hp2
    all_goals simp_all
    all_goals split at hwrap <;> simp_all
    all_goals split <;> simp_all
  refine ⟨hprev, fun cx cy r => ?_⟩
  rw [hprev.1, hprev.2]
  exact lsic_same_point p2.x p2.y cx cy r

/-- Concrete level used by the wrap witness: no planets, no black holes, the
goal right next to the right screen edge. -/
def levelWrapW : Level :=
  { planets := [], startPosition := (0, 0), goalPosition := (798, 310),
    goalRadius := 20, blackHoles := [], seed := 0, archetype := "standard",
    goal := { x := 798, y := 310, radius := 20, gravityStrength := 0.56 } }

/-- Concrete flying player used by the wrap witness: at (798, 300) moving
right at 600 px per second, inside the zero-force guard of the goal. -/
def playerWrapW : Player :=
  { x := 798, y := 300, prevX := 798, prevY := 300, vx := 600, vy := 0,
    screenWrapped := false, onPlanet := false, currentPlanet := none,
    hasJumped := false, angle := 0, angularSpeed := 0 }

/-- Witness for wrap_resets_swept_segment: one second of flight carries the
player past the right edge, the wrap fires, and the step segment against the
circle of radius 5 at (0, 300) degenerates to the point test. -/
theorem wrap_resets_swept_segment_witness :
    ((updatePhysics levelWrapW false false 1000 1 2 playerWrapW).onPlanet = false ∧
     (updatePhysics levelWrapW false false 1000 1 2 playerWrapW).screenWrapped = true) ∧
    ((updatePhysics levelWrapW false false 1000 1 2 playerWrapW).prevX =
        (updatePhysics levelWrapW false false 1000 1 2 playerWrapW).x ∧
      (updatePhysics levelWrapW false false 1000 1 2 playerWrapW).prevY =
        (updatePhysics levelWrapW false false 1000 1 2 playerWrapW).y) ∧
    (lineSegmentIntersectsCircle
        (updatePhysics levelWrapW false false 1000 1 2 playerWrapW).prevX
        (updatePhysics levelWrapW false false 1000 1 2 playerWrapW).prevY
        (updatePhysics levelWrapW false false 1000 1 2 playerWrapW).x
        (updatePhysics levelWrapW false false 1000 1 2 playerWrapW).y 0 300 5 ↔
      ((updatePhysics levelWrapW false false 1000 1 2 playerWrapW).x - 0) *
          ((updatePhysics levelWrapW false false 1000 1 2 playerWrapW).x - 0) +
        ((updatePhysics levelWrapW false false 1000 1 2 playerWrapW).y - 300) *
          ((updatePhysics levelWrapW false false 1000 1 2 playerWrapW).y - 300) ≤
        5 * 5) := by
  have h100 : Real.sqrt 100 = 10 := by
    rw [show (100 : ℝ) = 10 ^ 2 by norm_num, Real.sqrt_sq (by norm_num : (0:ℝ) ≤ 10)]
  have hstep : updatePhysics levelWrapW false false 1000 1 2 playerWrapW =
      { x := 0, y := 300, prevX := 0, prevY := 300, vx := 600, vy := 0,
        screenWrapped := true, onPlanet := false, currentPlanet := none,
        hasJumped := false, angle := 0, angularSpeed := 0 } := by
    rw [updatePhysics]
    norm_num [levelWrapW, playerWrapW, landingScan, GoalSource.calculateGravity,
      calculateGravity, wrapScreenPosition, CANVAS_WIDTH, CANVAS_HEIGHT, h100]
  have hflight : (updatePhysics levelWrapW false false 1000 1 2 playerWrapW).onPlanet = false := by
    rw [hstep]
  have hwrap : (updatePhysics levelWrapW false false 1000 1 2 playerWrapW).screenWrapped = true := by
    rw [hstep]
  have h := wrap_resets_swept_segment levelWrapW false false 1000 1 2 playerWrapW _
    rfl hflight hwrap
  exact ⟨⟨hflight, hwrap⟩, h.1, h.2 0 300 5⟩

/-- Outcome classification of one driver step (the update function in
script.js). -/
inductive StepOutcome where
  | skipped
  | destroyed
  | reachedGoal
  | continuing
deriving DecidableEq

/-- Reduced game state: the fields of the gameState object that the physics
step, the death handler and the completion handler read or write.  Rendering
state, particle pools, screen shake, menus and persistent statistics are
out-of-scope collaborators and are omitted. -/
structure GameState where
  currentLevel : Level
  player : Player
  gameStarted : Bool
  paused : Bool
  keysLeft : Bool
  keysRight : Bool
  mode : String
  speedrunTarget : ℕ
  currentLevelNumber : ℕ
  levelsCompleted : ℕ
  deaths : ℕ
  lives : ℤ
  currentTime : ℝ
  score : ℤ
  highScore : ℤ
  dailyBestScore : ℤ
  gameSpeed : ℝ
  gravityMultiplier : ℝ

/-- The player motion performed by one call of update in script.js: the
previous position is stored before the physics update (for swept collision),
then Player.updatePhysics runs on the current level. -/
def stepPlayer (s : GameState) (deltaTime : ℝ) : Player :=
  updatePhysics s.currentLevel s.keysLeft s.keysRight deltaTime s.gameSpeed
    s.gravityMultiplier
    { s.player with prevX := s.player.x, prevY := s.player.y }

/-- The outcome of one call of update in script.js: nothing when the game is
not running, otherwise the player kinetics are updated first, black-hole
lethality is evaluated second (returning immediately when lethal), and goal
completion is evaluated last.  Black-hole cosmetic animation, particles,
screen shake and timer display do not touch the player or collision state
and are omitted. -/
def updateOutcome (s : GameState) (deltaTime : ℝ) : StepOutcome :=
  if s.gameStarted = false ∨ s.paused = true then StepOutcome.skipped
  else
    let p2 := stepPlayer s deltaTime
    if checkBlackHoleCollision p2 s.currentLevel.blackHoles then
      StepOutcome.destroyed
    else if s.currentLevel.checkGoal p2 then StepOutcome.reachedGoal
    else StepOutcome.continuing

/-- C7: in a running step, collision checks are evaluated on the
post-kinetics player; if the black-hole check fires there the outcome is
destroyed, regardless of whether the goal test would also pass, so a single
step never reports both destroyed and reachedGoal and death takes
precedence. -/
theorem blackhole_death_precedes_goal (s : GameState) (deltaTime : ℝ)
    (hstart : s.gameStarted = true) (hpause : s.paused = false)
    (hbh : checkBlackHoleCollision (stepPlayer s deltaTime)
      s.currentLevel.blackHoles) :
    updateOutcome s deltaTime = StepOutcome.destroyed ∧
    updateOutcome s deltaTime ≠ StepOutcome.reachedGoal := by
  have hout : updateOutcome s deltaTime = StepOutcome.destroyed := by
    rw [updateOutcome, if_neg (by simp [hstart, hpause]), if_pos hbh]
  exact ⟨hout, by rw [hout]; simp⟩

/-- Concrete level for the death-precedence witness: a black hole and the
goal both covering the player position. -/
def levelDeathW : Level :=
  { planets := [], startPosition := (0, 0), goalPosition := (100, 110),
    goalRadius := 20,
    blackHoles := [mkBlackHole (fun _ => 0) 0 100 100 10], seed := 0,
    archetype := "standard",
    goal := { x := 100, y := 110, radius := 20, gravityStrength := 0.56 } }

/-- Concrete game state for the death-precedence witness: the player sits at
(100, 100), inside both the black hole and the goal circle. -/
def stateDeathW : GameState :=
  { currentLevel := levelDeathW,
    player :=
      { x := 100, y := 100, prevX := 100, prevY := 100, vx := 0, vy := 0,
        screenWrapped := false, onPlanet := false, currentPlanet := none,
        hasJumped := false, angle := 0, angularSpeed := 0 },
    gameStarted := true, paused := false, keysLeft := false,
    keysRight := false, mode := "endless", speedrunTarget := 10,
    currentLevelNumber := 1, levelsCompleted := 0, deaths := 0, lives := 3,
    currentTime := 0, score := 0, highScore := 0, dailyBestScore := 0,
    gameSpeed := 1, gravityMultiplier := 2 }

/-- The witness step leaves the player in place (zero velocity and zero
elapsed time), so the black-hole check fires at (100, 100). -/
lemma stateDeathW_step : stepPlayer stateDeathW 0 =
    { x := 100, y := 100, prevX := 100, prevY := 100, vx := 0, vy := 0,
      screenWrapped := false, onPlanet := false, currentPlanet := none,
      hasJumped := false, angle := 0, angularSpeed := 0 } := by
  rw [stepPlayer, updatePhysics]
  norm_num [stateDeathW, levelDeathW, landingScan, wrapScreenPosition,
    CANVAS_WIDTH, CANVAS_HEIGHT]

/-- Witness for blackhole_death_precedes_goal: in the concrete state the
black-hole check fires after the step, the goal test also passes, and the
outcome is destroyed and not reachedGoal. -/
theorem blackhole_death_precedes_goal_witness :
    (stateDeathW.gameStarted = true ∧ stateDeathW.paused = false ∧
      checkBlackHoleCollision (stepPlayer stateDeathW 0)
        stateDeathW.currentLevel.blackHoles ∧
      stateDeathW.currentLevel.checkGoal (stepPlayer stateDeathW 0)) ∧
    (updateOutcome stateDeathW 0 = StepOutcome.destroyed ∧
     updateOutcome stateDeathW 0 ≠ StepOutcome.reachedGoal) := by
  have hbh : checkBlackHoleCollision (stepPlayer stateDeathW 0)
      stateDeathW.currentLevel.blackHoles := by
    rw [stateDeathW_step]
    refine ⟨mkBlackHole (fun _ => 0) 0 100 100 10, by simp [stateDeathW, levelDeathW], ?_⟩
    left
    norm_num [mkBlackHole, playerRadius]
  have hgoal : stateDeathW.currentLevel.checkGoal (stepPlayer stateDeathW 0) := by
    rw [stateDeathW_step]
    left
    norm_num [stateDeathW, levelDeathW]
  exact ⟨⟨rfl, rfl, hbh, hgoal⟩,
    blackhole_death_precedes_goal stateDeathW 0 rfl rfl hbh⟩

/-- Difficulty-tier configuration object built at the top of
Level.generateLevel.  The obstacleCount field of script.js is never read
(obstacles were removed from the game) and is omitted. -/
structure GenConfig where
  planetCountLo : ℕ
  planetCountHi : ℕ
  sizeLo : ℝ
  sizeHi : ℝ
  minSpacing : ℝ
  blackHoleCount : ℕ
  goalHops : ℤ
  archetype : String

/-- Tier selection from Level.generateLevel: the level number picks one of
six tiers; some tier fields consume seeded draws, in the evaluation order of
the JavaScript object literals (blackHoleCount, then goalHops, then
archetype).  Indexing the archetype array out of range would give undefined
in JavaScript, which the dispatch sends to the default generator; the
list getD default "" has the same effect. -/
def tierConfig (levelNumber : ℕ) (s : ℕ) : GenConfig × ℕ :=
  if levelNumber ≤ 5 then
    ({ planetCountLo := 3, planetCountHi := 4, sizeLo := 25, sizeHi := 45,
       minSpacing := 120, blackHoleCount := 0, goalHops := 1,
       archetype := "simple" }, s)
  else if levelNumber ≤ 15 then
    let a := randStep s
    let b := randStep a.2
    ({ planetCountLo := 4, planetCountHi := 5, sizeLo := 20, sizeHi := 55,
       minSpacing := 140, blackHoleCount := 0,
       goalHops := if a.1 < 0.5 then 1 else 2,
       archetype := if b.1 < 0.7 then "simple" else "binary" }, b.2)
  else if levelNumber ≤ 30 then
    let a := randStep s
    let b := randStep a.2
    ({ planetCountLo := 5, planetCountHi := 6, sizeLo := 15, sizeHi := 65,
       minSpacing := 160, blackHoleCount := 0,
       goalHops := ⌊a.1 * 2⌋ + 2,
       archetype := ["simple", "binary", "gauntlet", "slingshot"].getD
         (⌊b.1 * 4⌋).toNat "" }, b.2)
  else if levelNumber ≤ 50 then
    let a := randStep s
    let b := randStep a.2
    ({ planetCountLo := 6, planetCountHi := 7, sizeLo := 12, sizeHi := 75,
       minSpacing := 180, blackHoleCount := 0,
       goalHops := ⌊a.1 * 2⌋ + 3,
       archetype := ["binary", "gauntlet", "slingshot", "void", "maze"].getD
         (⌊b.1 * 5⌋).toNat "" }, b.2)
  else if levelNumber ≤ 75 then
    let a := randStep s
    let b := randStep a.2
    let c := randStep b.2
    ({ planetCountLo := 6, planetCountHi := 8, sizeLo := 10, sizeHi := 85,
       minSpacing := 200,
       blackHoleCount := if a.1 < 0.3 then 1 else 0,
       goalHops := ⌊b.1 * 2⌋ + 3,
       archetype := ["gauntlet", "void", "maze", "giant", "precision"].getD
         (⌊c.1 * 5⌋).toNat "" }, c.2)
  else
    let a := randStep s
    let b := randStep a.2
    ({ planetCountLo := 6, planetCountHi := 9, sizeLo := 8, sizeHi := 90,
       minSpacing := 220,
       blackHoleCount := min (levelNumber / 50) 3,
       goalHops := ⌊a.1 * 3⌋ + 3,
       archetype := ["void", "maze", "giant", "precision", "chaos"].getD
         (⌊b.1 * 5⌋).toNat "" }, b.2)

/-- The shared rejection-sampling attempt loop of the archetype generators:
draw a radius (archetype-specific formula), then a position inside the
canvas with the archetype margin, and accept when the candidate keeps
centre-to-centre distance of at least the two radii plus the spacing from
every previously accepted planet, within a bounded attempt budget. -/
def tryPlacePlanet (radiusFn : ℝ → ℝ) (margin spacing : ℝ)
    (existing : List Planet) : ℕ → ℕ → Option (ℝ × ℝ × ℝ) × ℕ
  | 0, s => (none, s)
  | fuel + 1, s =>
      let a := randStep s
      let radius := radiusFn a.1
      let b := randStep a.2
      let x := radius + margin + b.1 * (CANVAS_WIDTH - 2 * radius - 2 * margin)
      let c := randStep b.2
      let y := radius + margin + c.1 * (CANVAS_HEIGHT - 2 * radius - 2 * margin)
      if ∀ e ∈ existing,
          ¬(Real.sqrt ((x - e.x) * (x - e.x) + (y - e.y) * (y - e.y)) <
            e.radius + radius + spacing) then
        (some (radius, x, y), c.2)
      else tryPlacePlanet radiusFn margin spacing existing fuel c.2

/-- One iteration of the planet-count for loop of a rejection-sampling
archetype: run the attempt loop with budget 100 and push the accepted planet
(strength scales as the cube of radius over 35), or silently keep the list
when the budget is exhausted. -/
def placeStep (radiusFn : ℝ → ℝ) (margin spacing : ℝ)
    (st : List Planet × ℕ) : List Planet × ℕ :=
  match tryPlacePlanet radiusFn margin spacing st.1 100 st.2 with
  | (some (radius, x, y), s2) =>
      (st.1 ++ [⟨radius, x, y, (radius / 35) ^ 3⟩], s2)
  | (none, s2) => (st.1, s2)

/-- The planet-count for loop shared by the rejection-sampling archetypes,
as a fold over the loop indices starting from an initial accepted list. -/
def rejectionPlanets (radiusFn : ℝ → ℝ) (margin spacing : ℝ) (count : ℕ)
    (init : List Planet) (s : ℕ) : List Planet × ℕ :=
  (List.range count).foldl (fun st _ => placeStep radiusFn margin spacing st)
    (init, s)

/-- Level._generateSimple: planet count drawn from the tier range, then the
rejection loop with margin 20 and the tier spacing. -/
def generateSimplePlanets (cfg : GenConfig) (s : ℕ) : List Planet × ℕ :=
  let a := randStep s
  let planetCount := cfg.planetCountLo +
    (⌊a.1 * (cfg.planetCountHi - cfg.planetCountLo + 1 : ℝ)⌋).toNat
  rejectionPlanets (fun r => cfg.sizeLo + (⌊r * (cfg.sizeHi - cfg.sizeLo)⌋ : ℤ))
    20 cfg.minSpacing planetCount [] a.2

/-- Level._generateBinarySystem: a close binary pair around the canvas
centre (spacing factor 0.7), then supporting planets by rejection sampling.
Every tier that can select binary has planetCountLo at least 4, so the
natural subtraction planetCountLo - 2 matches the JavaScript arithmetic. -/
def generateBinaryPlanets (cfg : GenConfig) (s : ℕ) : List Planet × ℕ :=
  let a := randStep s
  let binaryRadius1 := cfg.sizeHi * 0.7 + a.1 * cfg.sizeHi * 0.3
  let b := randStep a.2
  let binaryRadius2 := cfg.sizeHi * 0.6 + b.1 * cfg.sizeHi * 0.3
  let binarySeparation := binaryRadius1 + binaryRadius2 + cfg.minSpacing * 0.7
  let c := randStep b.2
  let angle := c.1 * π * 2
  let x1 := CANVAS_WIDTH / 2 + Real.cos angle * binarySeparation / 2
  let y1 := CANVAS_HEIGHT / 2 + Real.sin angle * binarySeparation / 2
  let x2 := CANVAS_WIDTH / 2 - Real.cos angle * binarySeparation / 2
  let y2 := CANVAS_HEIGHT / 2 - Real.sin angle * binarySeparation / 2
  let pair : List Planet :=
    [⟨binaryRadius1, x1, y1, (binaryRadius1 / 35) ^ 3⟩,
     ⟨binaryRadius2, x2, y2, (binaryRadius2 / 35) ^ 3⟩]
  let d := randStep c.2
  let remainingPlanets := cfg.planetCountLo - 2 +
    (⌊d.1 * (cfg.planetCountHi - cfg.planetCountLo : ℝ)⌋).toNat
  rejectionPlanets
    (fun r => cfg.sizeLo + (⌊r * (cfg.sizeHi - cfg.sizeLo) * 0.6⌋ : ℤ))
    20 cfg.minSpacing remainingPlanets pair d.2

/-- One iteration of the Level._generateGauntlet for loop: planets on a
line, alternating a fixed large radius (even indices) with a small drawn
radius, with no spacing check at all. -/
def gauntletStep (cfg : GenConfig) (horizontal : Prop) (planetCount : ℕ)
    (st : List Planet × ℕ) (i : ℕ) : List Planet × ℕ :=
  let t : ℝ := (i + 1) / (planetCount + 1)
  let rs : ℝ × ℕ :=
    if i % 2 = 0 then (cfg.sizeHi * 0.7, st.2)
    else
      let a := randStep st.2
      (cfg.sizeLo + a.1 * (cfg.sizeLo * 0.5), a.2)
  if horizontal then
    let x := t * (CANVAS_WIDTH - 100) + 50
    let b := randStep rs.2
    let y := CANVAS_HEIGHT / 2 + (b.1 - 0.5) * 200
    (st.1 ++ [⟨rs.1, x, y, (rs.1 / 35) ^ 3⟩], b.2)
  else
    let b := randStep rs.2
    let x := CANVAS_WIDTH / 2 + (b.1 - 0.5) * 200
    let y := t * (CANVAS_HEIGHT - 100) + 50
    (st.1 ++ [⟨rs.1, x, y, (rs.1 / 35) ^ 3⟩], b.2)

/-- Level._generateGauntlet: at least five planets on a horizontal or
vertical line chosen by one draw. -/
def generateGauntletPlanets (cfg : GenConfig) (s : ℕ) : List Planet × ℕ :=
  let planetCount := max 5 cfg.planetCountLo
  let a := randStep s
  (List.range planetCount).foldl
    (gauntletStep cfg (a.1 < 0.5) planetCount) ([], a.2)

/-- Level._generateVoid: sparse planets with margin 40 and no spacing
check. -/
def generateVoidPlanets (cfg : GenConfig) (s : ℕ) : List Planet × ℕ :=
  let planetCount := max 3 (cfg.planetCountLo - 1)
  (List.range planetCount).foldl (fun st _ =>
    let a := randStep st.2
    let radius : ℝ := cfg.sizeLo + (⌊a.1 * (cfg.sizeHi - cfg.sizeLo)⌋ : ℤ)
    let b := randStep a.2
    let x := radius + 40 + b.1 * (CANVAS_WIDTH - 2 * radius - 80)
    let c := randStep b.2
    let y := radius + 40 + c.1 * (CANVAS_HEIGHT - 2 * radius - 80)
    (st.1 ++ [⟨radius, x, y, (radius / 35) ^ 3⟩], c.2)) ([], s)

/-- Level._generateMaze: a dense cluster, rejection sampling with spacing
factor 0.7. -/
def generateMazePlanets (cfg : GenConfig) (s : ℕ) : List Planet × ℕ :=
  rejectionPlanets (fun r => cfg.sizeLo + (⌊r * (cfg.sizeHi - cfg.sizeLo)⌋ : ℤ))
    20 (cfg.minSpacing * 0.7) cfg.planetCountHi [] s

/-- Level._generateGiant: one dominant planet near the centre with strength
boosted by 1.5, then satellites by rejection sampling. -/
def generateGiantPlanets (cfg : GenConfig) (s : ℕ) : List Planet × ℕ :=
  let giantRadius := cfg.sizeHi
  let a := randStep s
  let giantX := CANVAS_WIDTH / 2 + (a.1 - 0.5) * 100
  let b := randStep a.2
  let giantY := CANVAS_HEIGHT / 2 + (b.1 - 0.5) * 100
  let giant : Planet := ⟨giantRadius, giantX, giantY, (giantRadius / 35) ^ 3 * 1.5⟩
  rejectionPlanets (fun r => cfg.sizeLo + (⌊r * (cfg.sizeLo * 2)⌋ : ℤ))
    20 cfg.minSpacing (cfg.planetCountLo - 1) [giant] b.2

/-- Level._generatePrecision: all tiny planets, margin 30, spacing factor
1.2. -/
def generatePrecisionPlanets (cfg : GenConfig) (s : ℕ) : List Planet × ℕ :=
  rejectionPlanets (fun r => cfg.sizeLo + (⌊r * (cfg.sizeLo * 0.5)⌋ : ℤ))
    30 (cfg.minSpacing * 1.2) cfg.planetCountHi [] s

/-- Level._generateSlingshot: four planets on a half-ellipse across the
canvas, radii drawn, no spacing check. -/
def generateSlingshotPlanets (cfg : GenConfig) (s : ℕ) : List Planet × ℕ :=
  (List.range 4).foldl (fun st i =>
    let t : ℝ := (i : ℝ) / 3
    let a := randStep st.2
    let radius : ℝ := cfg.sizeLo + (⌊a.1 * (cfg.sizeHi - cfg.sizeLo) * 0.7⌋ : ℤ)
    let curveAngle := t * π
    let curveRadius := min CANVAS_WIDTH CANVAS_HEIGHT * 0.35
    let x := CANVAS_WIDTH / 2 + Real.cos curveAngle * curveRadius
    let y := CANVAS_HEIGHT / 2 + Real.sin curveAngle * curveRadius * 0.5
    (st.1 ++ [⟨radius, x, y, (radius / 35) ^ 3⟩], a.2)) ([], s)

/-- One iteration of the Level._generateChaos for loop: rejection sampling
with margin 15 and spacing factor 0.8, plus a strength variance draw for
each accepted planet. -/
def chaosStep (cfg : GenConfig) (st : List Planet × ℕ) : List Planet × ℕ :=
  match tryPlacePlanet
      (fun r => cfg.sizeLo + (⌊r * (cfg.sizeHi - cfg.sizeLo)⌋ : ℤ))
      15 (cfg.minSpacing * 0.8) st.1 100 st.2 with
  | (some (radius, x, y), s2) =>
      let v := randStep s2
      let gravityVariance := 0.7 + v.1 * 0.6
      (st.1 ++ [⟨radius, x, y, (radius / 35) ^ 3 * gravityVariance⟩], v.2)
  | (none, s2) => (st.1, s2)

/-- Level._generateChaos: the chaos loop over the tier maximum planet
count. -/
def generateChaosPlanets (cfg : GenConfig) (s : ℕ) : List Planet × ℕ :=
  (List.range cfg.planetCountHi).foldl (fun st _ => chaosStep cfg st) ([], s)

/-- The black-hole candidate loop inside Level._finalizeLevelGeneration:
draw positions until one is far enough from every planet, the goal, the
start and every black hole placed so far, within 50 attempts. -/
def tryPlaceBlackHole (planets : List Planet) (goalX goalY sx sy : ℝ)
    (acc : List BlackHole) : ℕ → ℕ → Option (ℝ × ℝ) × ℕ
  | 0, s => (none, s)
  | fuel + 1, s =>
      let a := randStep s
      let x := 50 + a.1 * (CANVAS_WIDTH - 100)
      let b := randStep a.2
      let y := 50 + b.1 * (CANVAS_HEIGHT - 100)
      if (∀ pl ∈ planets,
            ¬(Real.sqrt ((x - pl.x) * (x - pl.x) + (y - pl.y) * (y - pl.y)) <
              pl.radius + 80)) ∧
          ¬(Real.sqrt ((x - goalX) ^ 2 + (y - goalY) ^ 2) < 100) ∧
          ¬(Real.sqrt ((x - sx) ^ 2 + (y - sy) ^ 2) < 120) ∧
          (∀ bh ∈ acc,
            ¬(Real.sqrt ((x - bh.x) * (x - bh.x) + (y - bh.y) * (y - bh.y)) <
              150)) then
        (some (x, y), b.2)
      else tryPlaceBlackHole planets goalX goalY sx sy acc fuel b.2

/-- One iteration of the black-hole count loop: a successful candidate
draws a radius 8 to 11 and constructs a BlackHole (consuming 200 ambient
draws for its cosmetic particles); an exhausted budget skips the black hole.
State: placed list, seed, ambient draw index. -/
def blackHoleStep (o : Oracle) (planets : List Planet)
    (goalX goalY sx sy : ℝ) (st : List BlackHole × ℕ × ℕ) :
    List BlackHole × ℕ × ℕ :=
  match tryPlaceBlackHole planets goalX goalY sx sy st.1 50 st.2.1 with
  | (some (x, y), s2) =>
      let r := randStep s2
      (st.1 ++ [mkBlackHole o st.2.2 x y (8 + (⌊r.1 * 4⌋ : ℤ))], r.2,
        st.2.2 + 200)
  | (none, s2) => (st.1, s2, st.2.2)

/-- The black-hole count loop of Level._finalizeLevelGeneration, as a fold
of blackHoleStep. -/
def placeBlackHoles (o : Oracle) (planets : List Planet)
    (goalX goalY sx sy : ℝ) (count : ℕ) (s : ℕ) :
    List BlackHole × ℕ × ℕ :=
  (List.range count).foldl
    (fun st _ => blackHoleStep o planets goalX goalY sx sy st) ([], s, 0)

/-- Level._finalizeLevelGeneration from script.js: fall back to one centred
planet when the archetype produced none, place the start just outside planet
0 at a random angle, place the goal near the planet at index goalHops at a
random angle and distance and clamp it to the canvas, then place the black
holes.  This is the monolithic script.js version, which has no goal
re-rolling loop (the modular part_001 version re-rolls; the claims that
depend on goal placement cite it separately). -/
def finalizeLevelGeneration (cfg : GenConfig) (planets0 : List Planet)
    (s : ℕ) (o : Oracle) : Level :=
  let planets := if planets0.isEmpty then
    [⟨30, CANVAS_WIDTH / 2, CANVAS_HEIGHT / 2, 1.0⟩] else planets0
  let startPlanet := planets.headI
  let a := randStep s
  let startAngle := a.1 * π * 2
  let startPosition :=
    (startPlanet.x + Real.cos startAngle * (startPlanet.radius + 15),
     startPlanet.y + Real.sin startAngle * (startPlanet.radius + 15))
  let idx0 : ℤ := min cfg.goalHops ((planets.length : ℤ) - 1)
  let goalPlanetIndex : ℤ :=
    if idx0 < 0 then (if 1 < planets.length then 1 else 0) else idx0
  let goalPlanet := planets.getD goalPlanetIndex.toNat default
  let b := randStep a.2
  let goalAngle := b.1 * π * 2
  let c := randStep b.2
  let goalDistance := goalPlanet.radius + 40 + c.1 * 30
  let goalX0 := goalPlanet.x + Real.cos goalAngle * goalDistance
  let goalY0 := goalPlanet.y + Real.sin goalAngle * goalDistance
  let goalX := max (20 + 30) (min (CANVAS_WIDTH - 20 - 30) goalX0)
  let goalY := max (20 + 30) (min (CANVAS_HEIGHT - 20 - 30) goalY0)
  let level := mkLevel planets startPosition (goalX, goalY)
  let bhs := placeBlackHoles o planets goalX goalY startPosition.1
    startPosition.2 cfg.blackHoleCount c.2
  { level with blackHoles := bhs.1 }

/-- Level._generateByArchetype: string dispatch over the nine placement
strategies, defaulting to the simple generator. -/
def generateByArchetype (cfg : GenConfig) (s : ℕ) (o : Oracle) : Level :=
  if cfg.archetype = "binary" then
    let r := generateBinaryPlanets cfg s
    finalizeLevelGeneration cfg r.1 r.2 o
  else if cfg.archetype = "gauntlet" then
    let r := generateGauntletPlanets cfg s
    finalizeLevelGeneration cfg r.1 r.2 o
  else if cfg.archetype = "void" then
    let r := generateVoidPlanets cfg s
    finalizeLevelGeneration cfg r.1 r.2 o
  else if cfg.archetype = "maze" then
    let r := generateMazePlanets cfg s
    finalizeLevelGeneration cfg r.1 r.2 o
  else if cfg.archetype = "giant" then
    let r := generateGiantPlanets cfg s
    finalizeLevelGeneration cfg r.1 r.2 o
  else if cfg.archetype = "precision" then
    let r := generatePrecisionPlanets cfg s
    finalizeLevelGeneration cfg r.1 r.2 o
  else if cfg.archetype = "slingshot" then
    let r := generateSlingshotPlanets cfg s
    finalizeLevelGeneration cfg r.1 r.2 o
  else if cfg.archetype = "chaos" then
    let r := generateChaosPlanets cfg s
    finalizeLevelGeneration cfg r.1 r.2 o
  else
    let r := generateSimplePlanets cfg s
    finalizeLevelGeneration cfg r.1 r.2 o

/-- Level.generateLevel: seed the linear-congruential state with the level
number, pick the tier configuration, dispatch on the archetype, and stamp
the seed and archetype on the produced level.  The ambient oracle o models
the Math.random stream consumed only by black-hole cosmetic particles. -/
def generateLevel (levelNumber : ℕ) (o : Oracle) : Level :=
  let tc := tierConfig levelNumber levelNumber
  let level := generateByArchetype tc.1 tc.2 o
  { level with seed := levelNumber, archetype := tc.1.archetype }

/-- The physics-relevant projection of a black hole: position and radius. -/
def physBH (bh : BlackHole) : ℝ × ℝ × ℝ := (bh.x, bh.y, bh.radius)

/-- The physics-relevant content of a generated level: everything except the
cosmetic particle and rotation state of the black holes. -/
structure LevelView where
  planets : List Planet
  startPosition : ℝ × ℝ
  goalPosition : ℝ × ℝ
  goalRadius : ℝ
  bhPhys : List (ℝ × ℝ × ℝ)
  seed : ℕ
  archetype : String

/-- Project a level to its physics-relevant content. -/
def physicsView (lvl : Level) : LevelView :=
  { planets := lvl.planets, startPosition := lvl.startPosition,
    goalPosition := lvl.goalPosition, goalRadius := lvl.goalRadius,
    bhPhys := lvl.blackHoles.map physBH, seed := lvl.seed,
    archetype := lvl.archetype }

/-- A universally quantified property that only reads a projection of the
list elements is determined by the projected list. -/
lemma forall_map_eq_iff {α β : Type _} (f : α → β) {l1 l2 : List α}
    (h : l1.map f = l2.map f) (Q : β → Prop) :
    (∀ a ∈ l1, Q (f a)) ↔ (∀ a ∈ l2, Q (f a)) := by
  constructor <;> intro hq a ha
  · have hmem : f a ∈ l1.map f := h ▸ List.mem_map_of_mem f ha
    rcases List.mem_map.mp hmem with ⟨b, hb, hfb⟩
    exact hfb ▸ hq b hb
  · have hmem : f a ∈ l2.map f := h ▸ List.mem_map_of_mem f ha
    rcases List.mem_map.mp hmem with ⟨b, hb, hfb⟩
    exact hfb ▸ hq b hb

/-- The black-hole candidate loop reads only the positions of the black
holes placed so far, so two accumulated lists with the same physics
projection give identical results. -/
lemma tryPlaceBlackHole_congr (planets : List Planet) (gx gy sx sy : ℝ)
    {acc1 acc2 : List BlackHole} (h : acc1.map physBH = acc2.map physBH) :
    ∀ (fuel s : ℕ),
      tryPlaceBlackHole planets gx gy sx sy acc1 fuel s =
        tryPlaceBlackHole planets gx gy sx sy acc2 fuel s := by
  intro fuel
  induction fuel with
  | zero => intro s; rfl
  | succ n ih =>
      intro s
      simp only [tryPlaceBlackHole]
      exact if_congr
        (and_congr Iff.rfl (and_congr Iff.rfl (and_congr Iff.rfl
          (forall_map_eq_iff physBH h fun t =>
            ¬(Real.sqrt (((50 + (randStep s).1 * (CANVAS_WIDTH - 100)) - t.1) *
                ((50 + (randStep s).1 * (CANVAS_WIDTH - 100)) - t.1) +
              ((50 + (randStep (randStep s).2).1 * (CANVAS_HEIGHT - 100)) - t.2.1) *
                ((50 + (randStep (randStep s).2).1 * (CANVAS_HEIGHT - 100)) - t.2.1)) <
              150)))))
        rfl (ih _)

/-- The physics projection of a constructed black hole is its position and
radius, independently of the ambient oracle. -/
lemma physBH_mkBlackHole (o : Oracle) (k : ℕ) (x y radius : ℝ) :
    physBH (mkBlackHole o k x y radius) = (x, y, radius) := rfl

/-- The black-hole count loop keeps the physics projection of its output
and its final seed independent of the ambient oracle and the ambient draw
index. -/
lemma bhFold_congr (o1 o2 : Oracle) (planets : List Planet)
    (gx gy sx sy : ℝ) :
    ∀ (l : List ℕ) (acc1 acc2 : List BlackHole) (s k1 k2 : ℕ),
      acc1.map physBH = acc2.map physBH →
      (l.foldl (fun st _ => blackHoleStep o1 planets gx gy sx sy st)
          (acc1, s, k1)).1.map physBH =
        (l.foldl (fun st _ => blackHoleStep o2 planets gx gy sx sy st)
          (acc2, s, k2)).1.map physBH := by
  intro l
  induction l with
  | nil => intro acc1 acc2 s k1 k2 h; exact h
  | cons i rest ih =>
      intro acc1 acc2 s k1 k2 h
      simp only [List.foldl_cons]
      have hstep : blackHoleStep o1 planets gx gy sx sy (acc1, s, k1) =
          (fun st => (st.1, st.2)) (blackHoleStep o1 planets gx gy sx sy (acc1, s, k1)) := rfl
      simp only [blackHoleStep]
      rw [tryPlaceBlackHole_congr planets gx gy sx sy h 50 s]
      rcases htp : tryPlaceBlackHole planets gx gy sx sy acc2 50 s with ⟨opt, s2⟩
      cases opt with
      | some xy =>
          rcases xy with ⟨x, y⟩
          apply ih
          simp only [List.map_append, List.map_cons, List.map_nil, h,
            physBH_mkBlackHole]
      | none => exact ih _ _ _ _ _ h

/-- The physics view of a finalized level does not depend on the ambient
oracle. -/
lemma finalize_view_congr (cfg : GenConfig) (ps : List Planet) (s : ℕ)
    (o1 o2 : Oracle) :
    physicsView (finalizeLevelGeneration cfg ps s o1) =
      physicsView (finalizeLevelGeneration cfg ps s o2) := by
  unfold physicsView
  congr 1
  simp only [finalizeLevelGeneration, placeBlackHoles, mkLevel]
  exact bhFold_congr o1 o2 _ _ _ _ _ _ [] [] _ 0 0 rfl

/-- The archetype dispatch passes the oracle only to finalization, so the
physics view is oracle-independent. -/
lemma generateByArchetype_view_congr (cfg : GenConfig) (s : ℕ)
    (o1 o2 : Oracle) :
    physicsView (generateByArchetype cfg s o1) =
      physicsView (generateByArchetype cfg s o2) := by
  rw [generateByArchetype, generateByArchetype]
  split_ifs <;> exact finalize_view_congr cfg _ _ o1 o2

/-- C1: Level.generateLevel is deterministic from the level number: for any
two ambient Math.random streams, the generated levels agree on planet count,
positions, radii and gravity strengths, the start position, the goal
position, and the positions and radii of every black hole; only the cosmetic
particle state may differ. -/
theorem generateLevel_deterministic (n : ℕ) (o1 o2 : Oracle) :
    physicsView (generateLevel n o1) = physicsView (generateLevel n o2) := by
  have h := generateByArchetype_view_congr (tierConfig n n).1 (tierConfig n n).2 o1 o2
  simp only [physicsView, LevelView.mk.injEq] at h
  simp only [generateLevel, physicsView, LevelView.mk.injEq]
  tauto

/-- The spacing relation of the rejection test: two planets keep
centre-to-centre distance of at least the sum of their radii plus the given
spacing. -/
def planetsSpaced (spacing : ℝ) (p q : Planet) : Prop :=
  p.radius + q.radius + spacing ≤
    Real.sqrt ((p.x - q.x) * (p.x - q.x) + (p.y - q.y) * (p.y - q.y))

/-- A successful attempt of the rejection loop is spaced from every
previously accepted planet. -/
lemma tryPlacePlanet_spaced (radiusFn : ℝ → ℝ) (margin spacing : ℝ)
    (existing : List Planet) :
    ∀ (fuel s : ℕ) (radius x y : ℝ) (s2 : ℕ),
      tryPlacePlanet radiusFn margin spacing existing fuel s =
        (some (radius, x, y), s2) →
      ∀ e ∈ existing, e.radius + radius + spacing ≤
        Real.sqrt ((x - e.x) * (x - e.x) + (y - e.y) * (y - e.y)) := by
  intro fuel
  induction fuel with
  | zero =>
      intro s radius x y s2 h
      simp [tryPlacePlanet] at h
  | succ n ih =>
      intro s radius x y s2 h
      rw [tryPlacePlanet] at h
      split at h
      · rename_i hvalid
        rw [Prod.mk.injEq, Option.some.injEq, Prod.mk.injEq, Prod.mk.injEq] at h
        obtain ⟨⟨hrad, hx, hy⟩, _⟩ := h
        intro e he
        have := hvalid e he
        rw [not_lt] at this
        rw [← hrad, ← hx, ← hy]
        exact this
      · exact ih _ radius x y s2 h

/-- One iteration of a rejection-archetype loop preserves pairwise
spacing of the accepted list. -/
lemma placeStep_pairwise (radiusFn : ℝ → ℝ) (margin spacing : ℝ)
    (st : List Planet × ℕ) (h : st.1.Pairwise (planetsSpaced spacing)) :
    (placeStep radiusFn margin spacing st).1.Pairwise (planetsSpaced spacing) := by
  rw [placeStep]
  rcases htp : tryPlacePlanet radiusFn margin spacing st.1 100 st.2 with ⟨opt, s2⟩
  cases opt with
  | none => exact h
  | some t =>
      rcases t with ⟨radius, x, y⟩
      simp only [List.pairwise_append, List.pairwise_cons,
        List.mem_singleton]
      refine ⟨h, ⟨by simp, List.Pairwise.nil⟩, ?_⟩
      intro e he b hb
      subst hb
      have hsp := tryPlacePlanet_spaced radiusFn margin spacing st.1 100 st.2
        radius x y s2 htp e he
      rw [planetsSpaced]
      have harg : (e.x - x) * (e.x - x) + (e.y - y) * (e.y - y) =
          (x - e.x) * (x - e.x) + (y - e.y) * (y - e.y) := by ring
      simpa [harg] using hsp

/-- The full rejection loop preserves pairwise spacing from any spaced
initial list. -/
lemma rejectionFold_pairwise (radiusFn : ℝ → ℝ) (margin spacing : ℝ) :
    ∀ (l : List ℕ) (init : List Planet) (s : ℕ),
      init.Pairwise (planetsSpaced spacing) →
      (l.foldl (fun st _ => placeStep radiusFn margin spacing st)
        (init, s)).1.Pairwise (planetsSpaced spacing) := by
  intro l
  induction l with
  | nil => intro init s h; exact h
  | cons i rest ih =>
      intro init s h
      rw [List.foldl_cons]
      rcases hps : placeStep radiusFn margin spacing (init, s) with ⟨acc2, s2⟩
      have h2 := placeStep_pairwise radiusFn margin spacing (init, s) h
      rw [hps] at h2
      exact ih acc2 s2 h2

/-- rejectionPlanets preserves pairwise spacing. -/
lemma rejectionPlanets_pairwise (radiusFn : ℝ → ℝ) (margin spacing : ℝ)
    (count : ℕ) (init : List Planet) (s : ℕ)
    (h : init.Pairwise (planetsSpaced spacing)) :
    (rejectionPlanets radiusFn margin spacing count init s).1.Pairwise
      (planetsSpaced spacing) := by
  rw [rejectionPlanets]
  exact rejectionFold_pairwise radiusFn margin spacing (List.range count) init s h

/-- The chaos loop also preserves pairwise spacing (it differs from
placeStep only by the extra strength variance draw). -/
lemma chaosFold_pairwise (cfg : GenConfig) :
    ∀ (l : List ℕ) (init : List Planet) (s : ℕ),
      init.Pairwise (planetsSpaced (cfg.minSpacing * 0.8)) →
      (l.foldl (fun st _ => chaosStep cfg st) (init, s)).1.Pairwise
        (planetsSpaced (cfg.minSpacing * 0.8)) := by
  intro l
  induction l with
  | nil => intro init s h; exact h
  | cons i rest ih =>
      intro init s h
      rw [List.foldl_cons]
      have h2 : (chaosStep cfg (init, s)).1.Pairwise
          (planetsSpaced (cfg.minSpacing * 0.8)) := by
        rw [chaosStep]
        rcases htp : tryPlacePlanet
            (fun r => cfg.sizeLo + (⌊r * (cfg.sizeHi - cfg.sizeLo)⌋ : ℤ))
            15 (cfg.minSpacing * 0.8) init 100 s with ⟨opt, s2⟩
        cases opt with
        | none => exact h
        | some t =>
            rcases t with ⟨radius, x, y⟩
            simp only [List.pairwise_append, List.pairwise_cons,
              List.mem_singleton]
            refine ⟨h, ⟨by simp, List.Pairwise.nil⟩, ?_⟩
            intro e he b hb
            subst hb
            have hsp := tryPlacePlanet_spaced _ 15 (cfg.minSpacing * 0.8) init
              100 s radius x y s2 htp e he
            rw [planetsSpaced]
            have harg : (e.x - x) * (e.x - x) + (e.y - y) * (e.y - y) =
                (x - e.x) * (x - e.x) + (y - e.y) * (y - e.y) := by ring
            simpa [harg] using hsp
      rcases hps : chaosStep cfg (init, s) with ⟨acc2, s2⟩
      rw [hps] at h2
      exact ih acc2 s2 h2

/-- C5, amended: the archetypes that place planets through the rejection
test do keep every accepted pair spaced by the loop threshold: the full
tier spacing for simple and for the giant satellites, and the
archetype-specific factors 0.7 (maze), 1.2 (precision) and 0.8 (chaos).
The line-based archetypes (gauntlet, slingshot) and void perform no spacing
check, which is what breaks the original universal claim. -/
theorem rejection_archetypes_pairwise_spaced (cfg : GenConfig) (s : ℕ) :
    (generateSimplePlanets cfg s).1.Pairwise (planetsSpaced cfg.minSpacing) ∧
    (generateMazePlanets cfg s).1.Pairwise
      (planetsSpaced (cfg.minSpacing * 0.7)) ∧
    (generatePrecisionPlanets cfg s).1.Pairwise
      (planetsSpaced (cfg.minSpacing * 1.2)) ∧
    (generateGiantPlanets cfg s).1.Pairwise (planetsSpaced cfg.minSpacing) ∧
    (generateChaosPlanets cfg s).1.Pairwise
      (planetsSpaced (cfg.minSpacing * 0.8)) := by
  refine ⟨?_, ?_, ?_, ?_, ?_⟩
  · rw [generateSimplePlanets]
    exact rejectionPlanets_pairwise _ _ _ _ _ _ List.Pairwise.nil
  · rw [generateMazePlanets]
    exact rejectionPlanets_pairwise _ _ _ _ _ _ List.Pairwise.nil
  · rw [generatePrecisionPlanets]
    exact rejectionPlanets_pairwise _ _ _ _ _ _ List.Pairwise.nil
  · rw [generateGiantPlanets]
    exact rejectionPlanets_pairwise _ _ _ _ _ _
      (List.pairwise_singleton _ _)
  · rw [generateChaosPlanets]
    exact chaosFold_pairwise cfg _ [] s List.Pairwise.nil

/-- Evaluation helper for single draws of the seeded generator. -/
lemma randStep_eval (s v : ℕ) (h : rngNext s = v) :
    randStep s = ((v : ℝ) / 233280, v) := by
  rw [randStep, h]

/-- The medium-tier configuration drawn for level 19: goal hops 3 and the
gauntlet archetype. -/
def gauntletCfg19 : GenConfig :=
  { planetCountLo := 5, planetCountHi := 6, sizeLo := 15, sizeHi := 65,
    minSpacing := 160, blackHoleCount := 0, goalHops := 3,
    archetype := "gauntlet" }

/-- Level 19 falls in the medium tier and its two seeded draws select goal
hops 3 and the gauntlet archetype. -/
lemma tierConfig_19 : tierConfig 19 19 = (gauntletCfg19, 138033) := by
  have hfA : (⌊(226016 : ℝ) / 233280 * 2⌋ : ℤ) = 1 := by
    rw [Int.floor_eq_iff]
    constructor <;> norm_num
  have hfB : (⌊(138033 : ℝ) / 233280 * 4⌋ : ℤ) = 2 := by
    rw [Int.floor_eq_iff]
    constructor <;> norm_num
  rw [tierConfig, if_neg (by norm_num), if_neg (by norm_num),
    if_pos (by norm_num)]
  rw [randStep_eval 19 226016 (by norm_num [rngNext])]
  norm_num
  rw [randStep_eval 226016 138033 (by norm_num [rngNext])]
  norm_num [hfA, hfB, gauntletCfg19]
  rfl

/-- The five planets of the level 19 gauntlet (vertical line): alternating
radius 45.5 with small drawn radii, x jittered around the canvas centre. -/
def gauntletPlanets19 : List Planet :=
  [⟨91 / 2, 2711035 / 5832, 400 / 3, (91 / 70) ^ 3⟩,
   ⟨54397 / 2592, 2059505 / 5832, 650 / 3, (54397 / 2592 / 35) ^ 3⟩,
   ⟨91 / 2, 1124045 / 2916, 300, (91 / 70) ^ 3⟩,
   ⟨172985 / 10368, 251995 / 729, 1150 / 3, (172985 / 10368 / 35) ^ 3⟩,
   ⟨91 / 2, 1976845 / 5832, 1400 / 3, (91 / 70) ^ 3⟩]

/-- Concrete evaluation of the gauntlet generator at the level 19 state. -/
lemma generateGauntletPlanets_19 :
    generateGauntletPlanets gauntletCfg19 138033 = (gauntletPlanets19, 45449) := by
  have hst0 : ∀ acc : List Planet,
      gauntletStep gauntletCfg19 False 5 (acc, 154390) 0 =
        (acc ++ [⟨91 / 2, 2711035 / 5832, 400 / 3, (91 / 70) ^ 3⟩], 192287) := by
    intro acc
    rw [gauntletStep, if_pos (show (0 : ℕ) % 2 = 0 by norm_num),
      if_neg not_false, randStep_eval 154390 192287 (by norm_num [rngNext])]
    norm_num [gauntletCfg19, CANVAS_WIDTH, CANVAS_HEIGHT, Planet.mk.injEq]
  have hst1 : ∀ acc : List Planet,
      gauntletStep gauntletCfg19 False 5 (acc, 192287) 1 =
        (acc ++ [⟨54397 / 2592, 2059505 / 5832, 650 / 3,
          (54397 / 2592 / 35) ^ 3⟩], 61981) := by
    intro acc
    rw [gauntletStep, if_neg (show ¬((1 : ℕ) % 2 = 0) by norm_num),
      randStep_eval 192287 186204 (by norm_num [rngNext]), if_neg not_false]
    rw [randStep_eval 186204 61981 (by norm_num [rngNext])]
    norm_num [gauntletCfg19, CANVAS_WIDTH, CANVAS_HEIGHT, Planet.mk.injEq]
  have hst2 : ∀ acc : List Planet,
      gauntletStep gauntletCfg19 False 5 (acc, 61981) 2 =
        (acc ++ [⟨91 / 2, 1124045 / 2916, 300, (91 / 70) ^ 3⟩], 99698) := by
    intro acc
    rw [gauntletStep, if_pos (show (2 : ℕ) % 2 = 0 by norm_num),
      if_neg not_false, randStep_eval 61981 99698 (by norm_num [rngNext])]
    norm_num [gauntletCfg19, CANVAS_WIDTH, CANVAS_HEIGHT, Planet.mk.injEq]
  have hst3 : ∀ acc : List Planet,
      gauntletStep gauntletCfg19 False 5 (acc, 99698) 3 =
        (acc ++ [⟨172985 / 10368, 251995 / 729, 1150 / 3,
          (172985 / 10368 / 35) ^ 3⟩], 53272) := by
    intro acc
    rw [gauntletStep, if_neg (show ¬((3 : ℕ) % 2 = 0) by norm_num),
      randStep_eval 99698 52395 (by norm_num [rngNext]), if_neg not_false]
    rw [randStep_eval 52395 53272 (by norm_num [rngNext])]
    norm_num [gauntletCfg19, CANVAS_WIDTH, CANVAS_HEIGHT, Planet.mk.injEq]
  have hst4 : ∀ acc : List Planet,
      gauntletStep gauntletCfg19 False 5 (acc, 53272) 4 =
        (acc ++ [⟨91 / 2, 1976845 / 5832, 1400 / 3, (91 / 70) ^ 3⟩], 45449) := by
    intro acc
    rw [gauntletStep, if_pos (show (4 : ℕ) % 2 = 0 by norm_num),
      if_neg not_false, randStep_eval 53272 45449 (by norm_num [rngNext])]
    norm_num [gauntletCfg19, CANVAS_WIDTH, CANVAS_HEIGHT, Planet.mk.injEq]
  rw [generateGauntletPlanets,
    randStep_eval 138033 154390 (by norm_num [rngNext])]
  rw [show max 5 gauntletCfg19.planetCountLo = 5 from rfl]
  norm_num
  rw [show List.range 5 = [0, 1, 2, 3, 4] from rfl]
  simp only [List.foldl_cons, List.foldl_nil]
  rw [hst0, hst1, hst2, hst3, hst4]
  simp [gauntletPlanets19]

/-- Finalization keeps the archetype planet list (with the single fallback
planet only when it is empty). -/
lemma finalize_planets (cfg : GenConfig) (ps : List Planet) (s : ℕ)
    (o : Oracle) :
    (finalizeLevelGeneration cfg ps s o).planets =
      if ps.isEmpty then [⟨30, CANVAS_WIDTH / 2, CANVAS_HEIGHT / 2, 1.0⟩]
      else ps := rfl

/-- The planets of generated level 19 are the gauntlet line. -/
lemma generateLevel_19_planets :
    (generateLevel 19 (fun _ => 0)).planets = gauntletPlanets19 := by
  show (generateByArchetype (tierConfig 19 19).1 (tierConfig 19 19).2
    (fun _ => 0)).planets = gauntletPlanets19
  rw [tierConfig_19]
  show (generateByArchetype gauntletCfg19 138033 (fun _ => 0)).planets =
    gauntletPlanets19
  rw [generateByArchetype, if_neg (by decide), if_pos (by rfl)]
  show (finalizeLevelGeneration gauntletCfg19
    (generateGauntletPlanets gauntletCfg19 138033).1
    (generateGauntletPlanets gauntletCfg19 138033).2 (fun _ => 0)).planets =
    gauntletPlanets19
  rw [generateGauntletPlanets_19, finalize_planets]
  simp [gauntletPlanets19]

/-- C5 counterexample: level 19 is a medium-tier gauntlet level
(minSpacing 160), but its first and third planets, both of radius 45.5,
are about 184.6 apart while the claimed invariant requires at least 251. -/
theorem generateLevel_spacing_violated :
    (tierConfig 19 19).1.archetype = "gauntlet" ∧
    (tierConfig 19 19).1.minSpacing = 160 ∧
    ¬ (generateLevel 19 (fun _ => 0)).planets.Pairwise (planetsSpaced 160) := by
  refine ⟨by rw [tierConfig_19]; rfl, by rw [tierConfig_19]; norm_num [gauntletCfg19], ?_⟩
  rw [generateLevel_19_planets, gauntletPlanets19]
  intro hpw
  have h0 := (List.pairwise_cons.mp hpw).1
    (⟨91 / 2, 1124045 / 2916, 300, (91 / 70) ^ 3⟩ : Planet) (by simp)
  rw [planetsSpaced] at h0
  rw [Real.le_sqrt (by norm_num) (by positivity)] at h0
  norm_num at h0

/-- calculateEndlessScore from script.js: floor of levels * 1000 plus the
speed bonus 6000 * levels cubed over elapsed seconds; zero when nothing was
completed or no time passed. -/
def calculateEndlessScore (s : GameState) : ℤ :=
  if s.levelsCompleted = 0 ∨ s.currentTime / 1000 = 0 then 0
  else ⌊(s.levelsCompleted : ℝ) * 1000 +
    6000 * (s.levelsCompleted : ℝ) ^ 3 / (s.currentTime / 1000)⌋

/-- handlePlayerDeath from script.js: count the death; in endless and daily
modes spend a life and end the session when none remain (keeping the level
and player as they are); otherwise construct a brand-new Player at the
current level start position.  The current level object is left untouched.
Persistent statistics and localStorage writes are out-of-scope side effects
and are omitted; dailySeed and the ambient oracle are threaded for the
generator signature symmetry. -/
def handlePlayerDeath (s : GameState) : GameState :=
  let s1 := { s with deaths := s.deaths + 1 }
  if s1.mode = "endless" ∨ s1.mode = "daily" then
    let s2 := { s1 with lives := s1.lives - 1 }
    if s2.lives ≤ 0 then
      { s2 with gameStarted := false }
    else
      { s2 with player := (mkPlayer s2.currentLevel.startPosition.1
          s2.currentLevel.startPosition.2 s2.currentLevel.planets.head?) }
  else
    { s1 with player := (mkPlayer s1.currentLevel.startPosition.1
        s1.currentLevel.startPosition.2 s1.currentLevel.planets.head?) }

/-- handleLevelComplete from script.js: count the completed level, then per
mode either finish a speedrun (ending the session) or generate the next
level from the next level number (dailySeed plus completed count in daily
mode), update the score records, and construct a brand-new Player on the
new level.  Speedrun record bookkeeping and localStorage writes are
out-of-scope and omitted. -/
def handleLevelComplete (dailySeed : ℕ) (o : Oracle) (s : GameState) :
    GameState :=
  let s1 := { s with levelsCompleted := s.levelsCompleted + 1 }
  if s1.mode = "speedrun" ∧ s1.speedrunTarget ≤ s1.levelsCompleted then
    { s1 with gameStarted := false }
  else
    let s2 :=
      if s1.mode = "speedrun" then
        { s1 with
            currentLevelNumber := s1.currentLevelNumber + 1
            currentLevel := generateLevel (s1.currentLevelNumber + 1) o }
      else if s1.mode = "endless" then
        let sl := { s1 with
            currentLevelNumber := s1.currentLevelNumber + 1
            currentLevel := generateLevel (s1.currentLevelNumber + 1) o }
        let sc := { sl with score := calculateEndlessScore sl }
        if sc.highScore < sc.score then { sc with highScore := sc.score }
        else sc
      else if s1.mode = "daily" then
        let sl := { s1 with
            currentLevelNumber := s1.currentLevelNumber + 1
            currentLevel := generateLevel (dailySeed + s1.levelsCompleted) o }
        let sc := { sl with score := calculateEndlessScore sl }
        if sc.dailyBestScore < sc.score then
          { sc with dailyBestScore := sc.score }
        else sc
      else if s1.mode = "practice" then
        { s1 with
            currentLevelNumber := s1.currentLevelNumber + 1
            currentLevel := generateLevel (s1.currentLevelNumber + 1) o }
      else s1
    { s2 with player := (mkPlayer s2.currentLevel.startPosition.1
        s2.currentLevel.startPosition.2 s2.currentLevel.planets.head?) }

/-- restartLevel from script.js (also the KeyR handler): regenerate the
current level number from scratch and construct a brand-new Player on it.
The particle pool clear is render-only and omitted. -/
def restartLevel (o : Oracle) (s : GameState) : GameState :=
  let s2 := { s with currentLevel := generateLevel s.currentLevelNumber o }
  { s2 with player := (mkPlayer s2.currentLevel.startPosition.1
      s2.currentLevel.startPosition.2 s2.currentLevel.planets.head?) }

/-- Every black hole of a freshly constructed level has rotation 0 (the
BlackHole constructor starts the cosmetic rotation at zero). -/
lemma bhFold_rotation (o : Oracle) (planets : List Planet)
    (gx gy sx sy : ℝ) :
    ∀ (l : List ℕ) (acc : List BlackHole) (s k : ℕ),
      (∀ bh ∈ acc, bh.rotation = 0) →
      ∀ bh ∈ (l.foldl (fun st _ => blackHoleStep o planets gx gy sx sy st)
        (acc, s, k)).1, bh.rotation = 0 := by
  intro l
  induction l with
  | nil => intro acc s k h; exact h
  | cons i rest ih =>
      intro acc s k h
      rw [List.foldl_cons]
      rcases hbs : blackHoleStep o planets gx gy sx sy (acc, s, k) with ⟨acc2, s2, k2⟩
      have h2 : ∀ bh ∈ acc2, bh.rotation = 0 := by
        rw [blackHoleStep] at hbs
        rcases htp : tryPlaceBlackHole planets gx gy sx sy acc 50 s with ⟨opt, sx2⟩
        rw [htp] at hbs
        cases opt with
        | some xy =>
            rcases xy with ⟨x, y⟩
            simp only [Prod.mk.injEq] at hbs
            intro bh hbh
            rw [← hbs.1] at hbh
            rcases List.mem_append.mp hbh with hmem | hmem
            · exact h bh hmem
            · rw [List.mem_singleton] at hmem
              rw [hmem]
              rfl
        | none =>
            simp only [Prod.mk.injEq] at hbs
            intro bh hbh
            rw [← hbs.1] at hbh
            exact h bh hbh
      have := ih acc2 s2 k2 h2
      exact this

/-- The black holes of a finalized level are exactly the placement loop
output. -/
lemma finalize_blackHoles (cfg : GenConfig) (ps : List Planet) (s : ℕ)
    (o : Oracle) :
    (finalizeLevelGeneration cfg ps s o).blackHoles =
      (placeBlackHoles o
        (if ps.isEmpty then [⟨30, CANVAS_WIDTH / 2, CANVAS_HEIGHT / 2, 1.0⟩]
         else ps)
        (finalizeLevelGeneration cfg ps s o).goalPosition.1
        (finalizeLevelGeneration cfg ps s o).goalPosition.2
        (finalizeLevelGeneration cfg ps s o).startPosition.1
        (finalizeLevelGeneration cfg ps s o).startPosition.2
        cfg.blackHoleCount
        (randStep (randStep (randStep s).2).2).2).1 := rfl

/-- Freshly generated levels always carry black holes with rotation 0. -/
lemma generateLevel_bh_rotation (n : ℕ) (o : Oracle) :
    ∀ bh ∈ (generateLevel n o).blackHoles, bh.rotation = 0 := by
  show ∀ bh ∈ (generateByArchetype (tierConfig n n).1 (tierConfig n n).2
    o).blackHoles, bh.rotation = 0
  rw [generateByArchetype]
  split_ifs <;>
    (rw [finalize_blackHoles, placeBlackHoles]
     exact bhFold_rotation o _ _ _ _ _ _ [] _ 0 (by intro bh h; cases h))

/-- A black hole whose cosmetic rotation has been advanced to 7 by
BlackHole.update: such a value is never produced by the constructor. -/
def bhMutated : BlackHole :=
  { x := 400, y := 300, radius := 10, gravityStrength := 4.0, rotation := 7,
    particles := [] }

/-- A level holding the mutated black hole, standing for a level whose
cosmetic state has evolved during play. -/
def levelMutated : Level :=
  { planets := [⟨35, 100, 100, 1⟩], startPosition := (150, 100),
    goalPosition := (700, 300), goalRadius := 20, blackHoles := [bhMutated],
    seed := 3, archetype := "simple",
    goal := { x := 700, y := 300, radius := 20, gravityStrength := 0.56 } }

/-- A running endless-mode state on the mutated level with lives left. -/
def stateMutated : GameState :=
  { currentLevel := levelMutated,
    player := mkPlayer 150 100 (some ⟨35, 100, 100, 1⟩),
    gameStarted := true, paused := false, keysLeft := false,
    keysRight := false, mode := "endless", speedrunTarget := 10,
    currentLevelNumber := 3, levelsCompleted := 2, deaths := 0, lives := 3,
    currentTime := 10000, score := 0, highScore := 0, dailyBestScore := 0,
    gameSpeed := 1, gravityMultiplier := 2 }

/-- C10 counterexample: on player death with lives remaining the Level is
not replaced: the post-death state carries the very same level value,
including its advanced cosmetic black-hole rotation 7, while every level
constructed by Level.generateLevel has all black-hole rotations 0 — so the
old Level is reused, not freshly constructed. -/
theorem death_keeps_old_level :
    (handlePlayerDeath stateMutated).currentLevel = stateMutated.currentLevel ∧
    (∃ bh ∈ stateMutated.currentLevel.blackHoles, bh.rotation = 7) ∧
    (∀ (n : ℕ) (o : Oracle), ∀ bh ∈ (generateLevel n o).blackHoles,
      bh.rotation = 0) := by
  refine ⟨?_, ⟨bhMutated, by simp [stateMutated, levelMutated], rfl⟩,
    fun n o => generateLevel_bh_rotation n o⟩
  rw [handlePlayerDeath]
  rw [if_pos (Or.inl (show stateMutated.mode = "endless" from rfl))]
  rw [if_neg (show ¬(stateMutated.lives - 1 ≤ 0) by norm_num [stateMutated])]

/-- C10 amended: goal completion and restart discard both Level and Body
wholesale (the new level is a fresh generateLevel output and the new player
is constructed from its start position alone), while death with lives
remaining constructs a fresh Body but keeps the current Level value
unchanged. -/
theorem transitions_replace_level_except_death (dailySeed : ℕ) (o : Oracle)
    (s : GameState) (hmode : s.mode = "endless") (hlives : 2 ≤ s.lives) :
    ((handlePlayerDeath s).currentLevel = s.currentLevel ∧
     (handlePlayerDeath s).player = mkPlayer s.currentLevel.startPosition.1
        s.currentLevel.startPosition.2 s.currentLevel.planets.head?) ∧
    ((handleLevelComplete dailySeed o s).currentLevel =
        generateLevel (s.currentLevelNumber + 1) o ∧
     (handleLevelComplete dailySeed o s).player =
       mkPlayer (generateLevel (s.currentLevelNumber + 1) o).startPosition.1
         (generateLevel (s.currentLevelNumber + 1) o).startPosition.2
         (generateLevel (s.currentLevelNumber + 1) o).planets.head?) ∧
    ((restartLevel o s).currentLevel = generateLevel s.currentLevelNumber o ∧
     (restartLevel o s).player =
       mkPlayer (generateLevel s.currentLevelNumber o).startPosition.1
         (generateLevel s.currentLevelNumber o).startPosition.2
         (generateLevel s.currentLevelNumber o).planets.head?) := by
  refine ⟨?_, ?_, ⟨rfl, rfl⟩⟩
  · rw [handlePlayerDeath]
    rw [if_pos (Or.inl hmode)]
    rw [if_neg (show ¬(s.lives - 1 ≤ 0) by omega)]
    exact ⟨rfl, rfl⟩
  · rw [handleLevelComplete]
    rw [if_neg (show ¬(s.mode = "speedrun" ∧ _) from
      fun h => by rw [hmode] at h; exact absurd h.1 (by decide))]
    rw [if_neg (show ¬(s.mode = "speedrun") from
      fun h => by rw [hmode] at h; exact absurd h (by decide))]
    rw [if_pos hmode]
    simp only []
    split <;> exact ⟨rfl, rfl⟩

/-- Witness for transitions_replace_level_except_death at the concrete
running endless state. -/
theorem transitions_replace_level_except_death_witness :
    (stateMutated.mode = "endless" ∧ (2 : ℤ) ≤ stateMutated.lives) ∧
    ((handlePlayerDeath stateMutated).currentLevel =
        stateMutated.currentLevel ∧
     (handlePlayerDeath stateMutated).player =
       mkPlayer stateMutated.currentLevel.startPosition.1
         stateMutated.currentLevel.startPosition.2
         stateMutated.currentLevel.planets.head?) ∧
    ((handleLevelComplete 0 (fun _ => 0) stateMutated).currentLevel =
        generateLevel (stateMutated.currentLevelNumber + 1) (fun _ => 0) ∧
     (handleLevelComplete 0 (fun _ => 0) stateMutated).player =
       mkPlayer
         (generateLevel (stateMutated.currentLevelNumber + 1)
           (fun _ => 0)).startPosition.1
         (generateLevel (stateMutated.currentLevelNumber + 1)
           (fun _ => 0)).startPosition.2
         (generateLevel (stateMutated.currentLevelNumber + 1)
           (fun _ => 0)).planets.head?) ∧
    ((restartLevel (fun _ => 0) stateMutated).currentLevel =
        generateLevel stateMutated.currentLevelNumber (fun _ => 0) ∧
     (restartLevel (fun _ => 0) stateMutated).player =
       mkPlayer
         (generateLevel stateMutated.currentLevelNumber
           (fun _ => 0)).startPosition.1
         (generateLevel stateMutated.currentLevelNumber
           (fun _ => 0)).startPosition.2
         (generateLevel stateMutated.currentLevelNumber
           (fun _ => 0)).planets.head?) :=
  ⟨⟨rfl, by norm_num [stateMutated]⟩,
    transitions_replace_level_except_death 0 (fun _ => 0) stateMutated rfl
      (by norm_num [stateMutated])⟩

end

end Game
